import Mathlib

/-!
Verification development for the Screen_Printing_Chatbot repository.

The definitions below are a shallow embedding of the Python sources:

* `flows/order_flow.py`   — field parsers, the order step nodes, the
  interrupt detector and the order-flow router;
* `flows/email_sender.py` — `send_email`;
* `main.py` / `services/session_manager.py` — the orchestrator's `chat`
  turn handler over the in-memory session store;
* `flows/product_questions.py`, `flows/wants_human.py`,
  `flows/main_menu.py`, `flows/welcome.py`, `flows/end_conversation.py`
  — the side flows.

Python strings are modelled as Lean `String` over their character lists;
regular-expression scans of `order_flow.py` are modelled by direct
scanners that reproduce `re.findall` semantics (left-to-right scan,
greedy matching with the backtracking that the concrete patterns allow,
ASCII word boundaries).  Dictionaries with insertion order are modelled
as association lists.  External collaborators (the OpenAI intent
classifier, the RAG retriever, the SMTP transport) are parameters of the
corresponding functions.
-/

namespace SPC

/-! ### Character and string utilities (ASCII, as used by the sources) -/

def isAsciiUpper (c : Char) : Bool := 'A' ≤ c && c ≤ 'Z'

def isAsciiLower (c : Char) : Bool := 'a' ≤ c && c ≤ 'z'

def isAsciiAlpha (c : Char) : Bool := isAsciiUpper c || isAsciiLower c

def isDigitChar (c : Char) : Bool := '0' ≤ c && c ≤ '9'

/-- Word character for the `\b` boundary of Python's `re` (ASCII fragment). -/
def isWordChar (c : Char) : Bool := isAsciiAlpha c || isDigitChar c || c = '_'

/-- Character class `[A-Za-z\-]` used by the size-label patterns. -/
def isLabelChar (c : Char) : Bool := isAsciiAlpha c || c = '-'

/-- Python `\s` (ASCII fragment). -/
def isSpaceChar (c : Char) : Bool :=
  c = ' ' || c = '\t' || c = '\n' || c = '\r' || c = '\x0b' || c = '\x0c'

def lowerChar (c : Char) : Char :=
  if isAsciiUpper c then Char.ofNat (c.toNat + 32) else c

def lowerStr (s : String) : String := String.mk (s.toList.map lowerChar)

/-- Python `str.strip()` (ASCII whitespace). -/
def stripStr (s : String) : String :=
  String.mk (((s.toList.dropWhile isSpaceChar).reverse.dropWhile isSpaceChar).reverse)

/-- Whether `pat` is an initial segment of `hay`. -/
def listStartsWith : List Char → List Char → Bool
  | [], _ => true
  | _ :: _, [] => false
  | a :: as, b :: bs => a = b && listStartsWith as bs

/-- Whether `pat` occurs as a contiguous segment of `hay`. -/
def listInfixOf (pat hay : List Char) : Bool :=
  listStartsWith pat hay ||
    match hay with
    | [] => false
    | _ :: rest => listInfixOf pat rest

/-- Python `pat in hay` for strings. -/
def containsSub (hay pat : String) : Bool := listInfixOf pat.toList hay.toList

/-- Python `any(w in t for w in ws)`. -/
def containsAny (t : String) (ws : List String) : Bool := ws.any (containsSub t)

def natOfDigits (ds : List Char) : Nat :=
  ds.foldl (fun n c => 10 * n + (c.toNat - 48)) 0

/-- Model of Python `int(s)` on a string: optional surrounding whitespace,
optional sign, then a nonempty digit run (digit-group underscores are not
modelled; no input of interest contains them). -/
def pyIntOfString (s : String) : Option Int :=
  let cs := (s.toList.dropWhile isSpaceChar).reverse.dropWhile isSpaceChar |>.reverse
  let (neg, ds) :=
    match cs with
    | '-' :: rest => (true, rest)
    | '+' :: rest => (false, rest)
    | rest => (false, rest)
  if ds ≠ [] && ds.all isDigitChar then
    some (if neg then -(natOfDigits ds : Int) else (natOfDigits ds : Int))
  else none

/-! ### Size parser (`order_flow.py`, `SIZE_ALIASES`, `_canonical_size`,
`parse_sizes`)

`parse_sizes` runs three `re.findall` scans over the text:

* pattern A: `\b([A-Za-z\-]+)\s*:\s*(\d{1,4})\b` (two groups);
* pattern B: `\b(\d{1,4})\s*([A-Za-z]{1,4})\b` (two groups);
* pattern C: `\b(\d{1,4})\s+(x\s*)?([A-Za-z\-]+)\b` (three groups).

The third loop is written `for qty, word in re.findall(...)`, unpacking
each three-element tuple into two variables, so it raises `ValueError` on
its first iteration whenever pattern C matches anywhere in the text; the
model returns `Except.error` in that case. -/

/-- `SIZE_ALIASES` from `order_flow.py`, in dictionary order. -/
def SIZE_ALIASES : List (String × List String) :=
  [("xs", ["xs", "x-small", "xsmall"]),
   ("s", ["s", "sm", "small"]),
   ("m", ["m", "med", "medium"]),
   ("l", ["l", "lg", "large"]),
   ("xl", ["xl", "xlarge", "x-large"]),
   ("2xl", ["2xl", "xxl", "2x", "xx-large"]),
   ("3xl", ["3xl", "xxxl", "3x"])]

/-- `_canonical_size` from `order_flow.py`. -/
def _canonical_size (token : String) : Option String :=
  let t := lowerStr token
  (SIZE_ALIASES.find? (fun kv => kv.2.contains t)).map (·.1)

/-- Accumulate a quantity into an insertion-ordered association list, the
model of `sizes[key] = sizes.get(key, 0) + int(qty)`. -/
def addQty : List (String × Nat) → String → Nat → List (String × Nat)
  | [], k, q => [(k, q)]
  | (k', v) :: rest, k, q =>
    if k' = k then (k', v + q) :: rest else (k', v) :: addQty rest k q

def isWordOpt : Option Char → Bool
  | none => false
  | some c => isWordChar c

/-- Match of pattern A at the start of `cs`, where `prev` is the character
just before `cs` (for the `\b` boundary).  On success returns the two
groups, the last consumed character and the remainder.  The label and the
space runs are matched greedily; shrinking them cannot rescue a failed
match (the following character class is disjoint), and a digit run longer
than four or followed by a word character fails every backtracking
alternative, so the match is deterministic. -/
def matchA (prev : Option Char) (cs : List Char) :
    Option ((List Char × List Char) × Option Char × List Char) :=
  let (lab, r1) := cs.span isLabelChar
  match lab with
  | [] => none
  | c0 :: _ =>
    if isWordOpt prev = isWordChar c0 then none
    else
      match r1.dropWhile isSpaceChar with
      | ':' :: r3 =>
        let r4 := r3.dropWhile isSpaceChar
        let (ds, r5) := r4.span isDigitChar
        if ds.isEmpty || 4 < ds.length || isWordOpt r5.head? then none
        else some ((lab, ds), ds.getLast?, r5)
      | _ => none

/-- Match of pattern B at the start of `cs` (see `matchA` for conventions).
The letter group `[A-Za-z]{1,4}` fails whenever the maximal letter run is
longer than four or is followed by a word character, since every shorter
greedy alternative is then followed by a letter. -/
def matchB (prev : Option Char) (cs : List Char) :
    Option ((List Char × List Char) × Option Char × List Char) :=
  let (ds, r1) := cs.span isDigitChar
  match ds with
  | [] => none
  | _ =>
    if isWordOpt prev then none
    else if 4 < ds.length then none
    else
      let r2 := r1.dropWhile isSpaceChar
      let (ls, r3) := r2.span isAsciiAlpha
      if ls.isEmpty || 4 < ls.length || isWordOpt r3.head? then none
      else some ((ds, ls), ls.getLast?, r3)

/-- Longest nonempty prefix of the maximal `[A-Za-z\-]` run `run` after
which the `\b` boundary holds, `next` being the character following the
run; this is the greedy-with-backtracking behaviour of `([A-Za-z\-]+)\b`.
Returns the group and the unconsumed rest of `run`. -/
def wordTakeAux (run : List Char) (next : Option Char) : Nat → Option (List Char × List Char)
  | 0 => none
  | k + 1 =>
    let p := run.take (k + 1)
    let rest := run.drop (k + 1)
    let nxt := match rest.head? with
      | some c => some c
      | none => next
    match p.getLast? with
    | some lc =>
        if isWordChar lc = isWordOpt nxt then wordTakeAux run next k else some (p, rest)
    | none => none

def wordTake (run : List Char) (next : Option Char) : Option (List Char × List Char) :=
  wordTakeAux run next run.length

/-- Match of pattern C at the start of `cs`.  The optional group `(x\s*)?`
is tried with the group first (Python's greedy option), then without. -/
def matchC (prev : Option Char) (cs : List Char) :
    Option ((List Char × List Char × List Char) × Option Char × List Char) :=
  let (ds, r1) := cs.span isDigitChar
  match ds with
  | [] => none
  | _ =>
    if isWordOpt prev then none
    else if 4 < ds.length then none
    else
      let (sp, r2) := r1.span isSpaceChar
      match sp with
      | [] => none
      | _ =>
        let xTry :=
          match r2 with
          | c :: r3 =>
            if c = 'x' || c = 'X' then
              let sp2 := r3.takeWhile isSpaceChar
              let r4 := r3.dropWhile isSpaceChar
              let (wr, r5) := r4.span isLabelChar
              match wordTake wr r5.head? with
              | some (p, leftover) => some (c :: sp2, p, leftover ++ r5)
              | none => none
            else none
          | [] => none
        match xTry with
        | some (xg, p, rem) => some ((ds, xg, p), p.getLast?, rem)
        | none =>
          let (wr, r5) := r2.span isLabelChar
          match wordTake wr r5.head? with
          | some (p, leftover) => some ((ds, [], p), p.getLast?, leftover ++ r5)
          | none => none

/-- `re.findall` scan for pattern A: try a match at every position from
left to right, continue after each match.  `fuel` bounds the recursion by
the length of the text; every match consumes at least one character. -/
def scanA : Nat → Option Char → List Char → List (List Char × List Char)
  | 0, _, _ => []
  | _, _, [] => []
  | fuel + 1, prev, c :: rest =>
    match matchA prev (c :: rest) with
    | some (g, p, rem) => g :: scanA fuel p rem
    | none => scanA fuel (some c) rest

def scanB : Nat → Option Char → List Char → List (List Char × List Char)
  | 0, _, _ => []
  | _, _, [] => []
  | fuel + 1, prev, c :: rest =>
    match matchB prev (c :: rest) with
    | some (g, p, rem) => g :: scanB fuel p rem
    | none => scanB fuel (some c) rest

def scanC : Nat → Option Char → List Char → List (List Char × List Char × List Char)
  | 0, _, _ => []
  | _, _, [] => []
  | fuel + 1, prev, c :: rest =>
    match matchC prev (c :: rest) with
    | some (g, p, rem) => g :: scanC fuel p rem
    | none => scanC fuel (some c) rest

/-- `parse_sizes` from `order_flow.py`.  The first two loops accumulate
canonicalised labels into the insertion-ordered dictionary; the third loop
raises `ValueError` on its first iteration (three groups unpacked into two
variables), which the model reports as an error whenever pattern C has any
match in the text. -/
def parse_sizes (text : String) : Except String (List (String × Nat)) :=
  if text = "" then .ok []
  else
    let cs := text.toList
    let s1 := (scanA (cs.length + 1) none cs).foldl
      (fun m g =>
        match _canonical_size (String.mk g.1) with
        | some k => addQty m k (natOfDigits g.2)
        | none => m) []
    let s2 := (scanB (cs.length + 1) none cs).foldl
      (fun m g =>
        match _canonical_size (String.mk g.2) with
        | some k => addQty m k (natOfDigits g.1)
        | none => m) s1
    match scanC (cs.length + 1) none cs with
    | [] => .ok s2
    | _ :: _ => .error "ValueError: too many values to unpack (expected 2)"

/-- Helper for `digitRuns`: `acc` holds the current digit run, reversed. -/
def digitRunsAux : List Char → List Char → List Nat
  | acc, [] => if acc.isEmpty then [] else [natOfDigits acc.reverse]
  | acc, c :: rest =>
    if isDigitChar c then digitRunsAux (c :: acc) rest
    else if acc.isEmpty then digitRunsAux [] rest
    else natOfDigits acc.reverse :: digitRunsAux [] rest

/-- Python `re.findall(r"\d+", s)` as numbers, in order. -/
def digitRuns (cs : List Char) : List Nat := digitRunsAux [] cs

/-! ### Data model (`models/session_state.py`)

The `ConversationState` enumeration in `models/session_state.py` lacks six
members that the flow modules reference
(`ORDER_CONTACT_FIRST_NAME/_LAST_NAME/_EMAIL/_PHONE`,
`ORDER_DELIVERY_ADDRESS`, `ORDER_POST_CONFIRMATION`); they are included
here, following the spec's closed ConversationState enumeration of the
conversation/step states, since the routing and node code is written
against them. -/

inductive ConversationState
  | WELCOME
  | MAIN_MENU
  | WANTS_HUMAN
  | HAS_QUESTIONS_ABOUT_PRODUCT
  | ORDER_CONTACT
  | ORDER_CONTACT_FIRST_NAME
  | ORDER_CONTACT_LAST_NAME
  | ORDER_CONTACT_EMAIL
  | ORDER_CONTACT_PHONE
  | ORDER_ORGANIZATION
  | ORDER_TYPE
  | ORDER_BUDGET
  | ORDER_SERVICE
  | ORDER_APPAREL
  | ORDER_PRODUCT
  | ORDER_LOGO
  | ORDER_DECORATION_LOCATION
  | ORDER_DECORATION_COLORS
  | ORDER_QUANTITY
  | ORDER_SIZES
  | ORDER_DELIVERY
  | ORDER_DELIVERY_ADDRESS
  | ORDER_SUMMARY
  | ORDER_POST_CONFIRMATION
  | END
deriving DecidableEq, Repr

/-- The `.value` string of a `ConversationState` (the Python enum is a
`str` enum whose values equal the member names). -/
def ConversationState.value : ConversationState → String
  | .WELCOME => "WELCOME"
  | .MAIN_MENU => "MAIN_MENU"
  | .WANTS_HUMAN => "WANTS_HUMAN"
  | .HAS_QUESTIONS_ABOUT_PRODUCT => "HAS_QUESTIONS_ABOUT_PRODUCT"
  | .ORDER_CONTACT => "ORDER_CONTACT"
  | .ORDER_CONTACT_FIRST_NAME => "ORDER_CONTACT_FIRST_NAME"
  | .ORDER_CONTACT_LAST_NAME => "ORDER_CONTACT_LAST_NAME"
  | .ORDER_CONTACT_EMAIL => "ORDER_CONTACT_EMAIL"
  | .ORDER_CONTACT_PHONE => "ORDER_CONTACT_PHONE"
  | .ORDER_ORGANIZATION => "ORDER_ORGANIZATION"
  | .ORDER_TYPE => "ORDER_TYPE"
  | .ORDER_BUDGET => "ORDER_BUDGET"
  | .ORDER_SERVICE => "ORDER_SERVICE"
  | .ORDER_APPAREL => "ORDER_APPAREL"
  | .ORDER_PRODUCT => "ORDER_PRODUCT"
  | .ORDER_LOGO => "ORDER_LOGO"
  | .ORDER_DECORATION_LOCATION => "ORDER_DECORATION_LOCATION"
  | .ORDER_DECORATION_COLORS => "ORDER_DECORATION_COLORS"
  | .ORDER_QUANTITY => "ORDER_QUANTITY"
  | .ORDER_SIZES => "ORDER_SIZES"
  | .ORDER_DELIVERY => "ORDER_DELIVERY"
  | .ORDER_DELIVERY_ADDRESS => "ORDER_DELIVERY_ADDRESS"
  | .ORDER_SUMMARY => "ORDER_SUMMARY"
  | .ORDER_POST_CONFIRMATION => "ORDER_POST_CONFIRMATION"
  | .END => "END"

/-- Whether the state name starts with `ORDER_` (`_is_order_state` in
`main.py`). -/
def ConversationState.isOrder : ConversationState → Bool
  | .ORDER_CONTACT | .ORDER_CONTACT_FIRST_NAME | .ORDER_CONTACT_LAST_NAME
  | .ORDER_CONTACT_EMAIL | .ORDER_CONTACT_PHONE | .ORDER_ORGANIZATION
  | .ORDER_TYPE | .ORDER_BUDGET | .ORDER_SERVICE | .ORDER_APPAREL
  | .ORDER_PRODUCT | .ORDER_LOGO | .ORDER_DECORATION_LOCATION
  | .ORDER_DECORATION_COLORS | .ORDER_QUANTITY | .ORDER_SIZES
  | .ORDER_DELIVERY | .ORDER_DELIVERY_ADDRESS | .ORDER_SUMMARY
  | .ORDER_POST_CONFIRMATION => true
  | _ => false

inductive Intent
  | GREETING
  | HAS_QUESTIONS_ABOUT_PRODUCT
  | PLACE_ORDER
  | END_CONVERSATION
  | WANTS_HUMAN
  | NO_MATCH
  | YES
  | NO
deriving DecidableEq, Repr

structure Contact where
  first_name : Option String := none
  last_name : Option String := none
  email : Option String := none
  phone : Option String := none
deriving DecidableEq, Repr

structure Organization where
  is_business : Option Bool := none
  name : Option String := none
deriving DecidableEq, Repr

structure SizeQuantity where
  size : String
  quantity : Nat
deriving DecidableEq, Repr

structure OrderDetails where
  contact : Contact := {}
  organization : Organization := {}
  order_type : Option String := none
  budget_range : Option String := none
  service_type : Option String := none
  apparel_category : Option String := none
  product_name : Option String := none
  color : Option String := none
  decoration_location : Option String := none
  decoration_colors : Option Nat := none
  total_quantity : Option String := none
  sizes : List SizeQuantity := []
  delivery_option : Option String := none
  delivery_address : Option String := none
deriving DecidableEq, Repr

/-- A `conversation_history` entry; the timestamp and metadata of
`add_message` are not modelled (nothing reads them). -/
structure Message where
  role : String
  content : String
deriving DecidableEq, Repr

/-- The `context_data` scratch map, as a typed record: one field per key
the flow modules read or write, with Python-missing-key defaulting to the
falsy default of the field's type.  (All writers store values of these
types, so truthiness tests on `.get` results coincide with the typed
values.)  `contact_question_shown`, `org_question_shown` are legacy keys
written only by the `wants_human` resume reset; `interrupt_snapshot`
stores the three legacy sub-step flags and is never read back. -/
structure ContextData where
  order_interrupted : Bool := false
  just_resumed_from_interrupt : Bool := false
  interrupt_reason : Option String := none
  interrupt_snapshot : Option (Bool × Bool × Bool) := none
  intent_confidence : Option String := none
  intent_reasoning : Option String := none
  contact_question_shown : Bool := false
  org_question_shown : Bool := false
  contact_first_name_shown : Bool := false
  contact_first_name_complete : Bool := false
  contact_last_name_shown : Bool := false
  contact_last_name_complete : Bool := false
  contact_email_shown : Bool := false
  contact_email_complete : Bool := false
  contact_phone_shown : Bool := false
  contact_phone_complete : Bool := false
  contact_complete : Bool := false
  org_type_shown : Bool := false
  org_name_shown : Bool := false
  org_complete : Bool := false
  type_question_shown : Bool := false
  type_complete : Bool := false
  budget_question_shown : Bool := false
  budget_complete : Bool := false
  service_question_shown : Bool := false
  service_complete : Bool := false
  apparel_question_shown : Bool := false
  apparel_complete : Bool := false
  product_question_shown : Bool := false
  product_complete : Bool := false
  logo_question_shown : Bool := false
  logo_complete : Bool := false
  awaiting_upload : Bool := false
  upload_key : Option String := none
  decoration_location_shown : Bool := false
  decoration_location_complete : Bool := false
  loc_map : List (String × String) := []
  decoration_colors_shown : Bool := false
  decoration_colors_complete : Bool := false
  qty_question_shown : Bool := false
  qty_complete : Bool := false
  exact_sizes_mode : Bool := false
  exact_sizes_started : Bool := false
  used_range_path : Bool := false
  size_step : Nat := 0
  sizes_collected : List (String × Nat) := []
  sizes_question_shown : Bool := false
  sizes_complete : Bool := false
  sizes_pending : Option (List (String × Nat)) := none
  delivery_question_shown : Bool := false
  delivery_complete : Bool := false
  awaiting_address : Bool := false
  address_question_shown : Bool := false
  summary_shown : Bool := false
  order_confirmed : Bool := false
  order_complete : Bool := false
  main_menu_prompted : Bool := false
  product_question_prompted : Bool := false
  awaiting_resume_decision : Bool := false
  human_contact_shown : Bool := false
  post_order_question_shown : Bool := false
  logo_file_id : Option String := none
  logo_view_link : Option String := none
  logo_filename : Option String := none
deriving DecidableEq, Repr

/-- `SessionState` from `models/session_state.py`.  `last_user_message`
models Python's `Optional[str]` with `""` for both `None` and the empty
string (the code distinguishes them only by truthiness and by equality
with `"__RESUME__"`).  `email_send_attempts` is ghost instrumentation
counting the `send_email` calls made on behalf of this session; it is not
part of the Python state and nothing in the model reads it. -/
structure SessionState where
  session_id : String
  current_state : ConversationState := .WELCOME
  last_user_message : String := ""
  classified_intent : Option Intent := none
  conversation_history : List Message := []
  order : OrderDetails := {}
  interrupted_from : Option ConversationState := none
  context_data : ContextData := {}
  email_send_attempts : Nat := 0
deriving DecidableEq, Repr

/-- `SessionState.add_message` (timestamp and metadata dropped). -/
def addMsg (s : SessionState) (role content : String) : SessionState :=
  { s with conversation_history := s.conversation_history ++ [⟨role, content⟩] }

/-- The external collaborators, as oracles: the intent classifier (the
summary node's call, which always produces a valid `Intent`, and the main
menu's call, where `none` models an exception and triggers the keyword
fallback), the RAG retriever (`none` models an exception), the LLM change
parser of the summary node (`none` models an exception or unparseable
JSON), the SMTP outcome of the n-th `send_email` call, and the
`uuid4().hex` value used as upload key. -/
structure Oracles where
  classifyIntent : String → Intent
  classifyMenu : String → Option Intent
  rag : String → Option String
  llmChanges : String → Option (List (String × String))
  smtp : Nat → Bool
  uuidHex : String

/-! ### Interrupt detector (`order_flow.py`, `_wants_human`, `_wants_end`,
`_check_interrupt`) -/

def _wants_human (text : String) : Bool :=
  containsAny (lowerStr text)
    ["human", "agent", "representative", "talk to a person", "call me"]

def _wants_end (text : String) : Bool :=
  containsAny (lowerStr text)
    ["end", "cancel", "stop", "goodbye", "bye", "finish chat"]

/-- The product-question keyword list of `_check_interrupt`. -/
def productQuestionKeywords : List String :=
  ["product", "question", "price", "pricing", "cost",
   "shirt", "hoodie", "embroidery", "screen print"]

/-- `_check_interrupt` from `order_flow.py`: product-question keywords
first, then human escalation, then end keywords; on a hit it snapshots the
position, switches the state and (for product and end) emits the
transition message.  Returns the possibly-mutated state and the diversion
target. -/
def _check_interrupt (s0 : SessionState) : SessionState × Option ConversationState :=
  if s0.last_user_message = "" then (s0, none)
  else
    let text := lowerStr (stripStr s0.last_user_message)
    if containsAny text productQuestionKeywords then
      let s := { s0 with
        interrupted_from := some s0.current_state,
        classified_intent := some .HAS_QUESTIONS_ABOUT_PRODUCT,
        current_state := .HAS_QUESTIONS_ABOUT_PRODUCT,
        context_data := { s0.context_data with
          order_interrupted := true,
          interrupt_reason := some "product_questions",
          interrupt_snapshot := some (s0.context_data.contact_question_shown,
            s0.context_data.org_question_shown, s0.context_data.type_question_shown),
          intent_confidence := some "0.95",
          intent_reasoning := some "keyword: product question during order",
          product_question_prompted := true } }
      let s := addMsg s "assistant"
        "Sure! I'll help answer your product questions. What would you like to know?"
      (s, some .HAS_QUESTIONS_ABOUT_PRODUCT)
    else if _wants_human text then
      let s := { s0 with
        interrupted_from := some s0.current_state,
        classified_intent := some .WANTS_HUMAN,
        current_state := .WANTS_HUMAN,
        context_data := { s0.context_data with
          order_interrupted := true,
          interrupt_reason := some "wants_human",
          intent_confidence := some "1.0",
          intent_reasoning := some "keyword: wants human during order" } }
      (s, some .WANTS_HUMAN)
    else if _wants_end text then
      let s := { s0 with
        interrupted_from := some s0.current_state,
        classified_intent := some .END_CONVERSATION,
        current_state := .END,
        context_data := { s0.context_data with
          order_interrupted := true,
          interrupt_reason := some "end_conversation",
          intent_confidence := some "1.0",
          intent_reasoning := some "keyword: end conversation during order" } }
      let s := addMsg s "assistant"
        "Thanks for chatting! Feel free to come back anytime you're ready to continue your order."
      (s, some .END)
    else (s0, none)

/-! ### Summary rendering and the customer send (`order_flow.py`) -/

/-- Python `str.title()` on ASCII text. -/
def titleStr (s : String) : String :=
  let step : Bool × List Char → Char → Bool × List Char :=
    fun (prevAlpha, acc) c =>
      if isAsciiAlpha c then
        (true, (if prevAlpha then lowerChar c
                else if isAsciiLower c then Char.ofNat (c.toNat - 32) else c) :: acc)
      else (false, c :: acc)
  String.mk ((s.toList.foldl step (false, [])).2.reverse)

/-- Python `str.lstrip(', ')`. -/
def lstripCommaSpace (s : String) : String :=
  String.mk (s.toList.dropWhile (fun c => c = ',' || c = ' '))

/-- `_render_summary_text` from `order_flow.py`. -/
def _render_summary_text (s : SessionState) : String :=
  let o := s.order
  let sizes_line :=
    if o.sizes.isEmpty then "—"
    else String.intercalate ", " (o.sizes.map (fun sq => sq.size ++ ":" ++ toString sq.quantity))
  let color_line := match o.color with
    | some c => if c ≠ "" then titleStr c else "No preference"
    | none => "No preference"
  let logo_line :=
    match s.context_data.logo_view_link with
    | some link =>
      if link ≠ "" then "[View](" ++ link ++ ")"
      else if (s.context_data.logo_file_id).getD "" ≠ "" then "Uploaded" else "—"
    | none => if (s.context_data.logo_file_id).getD "" ≠ "" then "Uploaded" else "—"
  let nm := stripStr ((o.contact.first_name).getD "" ++ " " ++ (o.contact.last_name).getD "")
  let orStr : Option String → String := fun v =>
    match v with
    | some t => if t ≠ "" then t else "—"
    | none => "—"
  let contact_line := orStr o.contact.email ++ " / " ++ orStr o.contact.phone
  let contact_line :=
    if (o.contact.email).getD "" ≠ "" then lstripCommaSpace contact_line else contact_line
  let location := match o.decoration_location with
    | some l => if l ≠ "" then l else "Not specified"
    | none => "Not specified"
  let org_line := match o.organization.name with
    | some n => if n ≠ "" then n else "Personal"
    | none => "Personal"
  let colors_line := match o.decoration_colors with
    | some n => if n ≠ 0 then toString n else "—"
    | none => "—"
  "Quote Request Summary\n" ++
  "- Name: " ++ nm ++ "\n" ++
  "- Email / Phone: " ++ contact_line ++ "\n" ++
  "- Organization: " ++ org_line ++ "\n" ++
  "- Order Type: " ++ orStr o.order_type ++ "\n" ++
  "- Budget: " ++ orStr o.budget_range ++ "\n" ++
  "- Service: " ++ orStr o.service_type ++ "\n" ++
  "- Product: " ++ orStr o.product_name ++ "\n" ++
  "- Color: " ++ color_line ++ "\n" ++
  "- Decoration Location: " ++ location ++ "\n" ++
  "- Number of Colors: " ++ colors_line ++ "\n" ++
  "- Quantity: " ++ orStr o.total_quantity ++ "\n" ++
  "- Sizes: " ++ sizes_line ++ "\n" ++
  "- Logo: " ++ logo_line ++ "\n" ++
  "- Delivery: " ++ orStr o.delivery_option ++ "\n" ++
  "- Address: " ++ orStr o.delivery_address

/-- `_send_summary_to_customer` from `order_flow.py`: returns `False`
without any send when no customer email is present, otherwise calls
`send_email` (whose outcome the `smtp` oracle supplies, indexed by the
ghost attempt counter, which the call increments).  The subject and the
markdown-to-plain body rewriting do not influence the outcome and are not
tracked. -/
def _send_summary_to_customer (o : Oracles) (s : SessionState) : Bool × SessionState :=
  let to_addr := stripStr ((s.order.contact.email).getD "")
  if to_addr = "" then (false, s)
  else (o.smtp s.email_send_attempts,
        { s with email_send_attempts := s.email_send_attempts + 1 })

/-! ### Product parser (`order_flow.py`, `PRODUCT_CATALOG`, `_tok`,
`parse_product_and_color`) -/

def PRODUCT_CATALOG : List (String × List String) :=
  [("t-shirt", ["white", "black", "navy", "red", "gray"]),
   ("hoodie", ["black", "gray", "navy"]),
   ("hat", ["black", "white", "navy", "khaki"]),
   ("polo", ["white", "black", "navy"])]

/-- Helper for `_tok`: collect `[a-zA-Z0-9]+` runs, `acc` reversed. -/
def tokAux : List Char → List Char → List String
  | acc, [] => if acc.isEmpty then [] else [String.mk acc.reverse]
  | acc, c :: rest =>
    if isAsciiAlpha c || isDigitChar c then tokAux (c :: acc) rest
    else if acc.isEmpty then tokAux [] rest
    else String.mk acc.reverse :: tokAux [] rest

/-- `_tok` from `order_flow.py`: lowercased alphanumeric runs. -/
def _tok (s : String) : List String := tokAux [] (lowerStr s).toList

/-- The numeric form `^\s*(\d{1,2})(?:\s*[,;]\s*([a-zA-Z]+))?\s*$` of
`parse_product_and_color`; input is the stripped, lowercased text. -/
def parseNumericSelection (txt : String) : Option (Nat × Option String) :=
  let t1 := txt.toList.dropWhile isSpaceChar
  let (ds, rest0) := t1.span isDigitChar
  if ds.isEmpty || 2 < ds.length then none
  else
    let withColor :=
      match rest0.dropWhile isSpaceChar with
      | sep :: r2 =>
        if sep = ',' || sep = ';' then
          let (al, r4) := (r2.dropWhile isSpaceChar).span isAsciiAlpha
          if !al.isEmpty && (r4.dropWhile isSpaceChar).isEmpty then
            some (natOfDigits ds, some (String.mk al))
          else none
        else none
      | [] => none
    match withColor with
    | some v => some v
    | none =>
      if (rest0.dropWhile isSpaceChar).isEmpty then some (natOfDigits ds, none) else none

/-- `parse_product_and_color` from `order_flow.py`. -/
def parse_product_and_color (text : String) :
    Option String × Option String × String :=
  if text = "" then (none, none, "no text")
  else
    let txt := lowerStr (stripStr text)
    match parseNumericSelection txt with
    | some (idx, hint) =>
      let color_hint := match hint with
        | some h => if h ≠ "" then some h else none
        | none => none
      if 1 ≤ idx && idx ≤ PRODUCT_CATALOG.length then
        match PRODUCT_CATALOG.get? (idx - 1) with
        | some (product, colors) =>
          let chosen := match color_hint with
            | some h => if colors.contains h then some h else none
            | none => none
          (some product, chosen, "numeric selection")
        | none => (none, none, "no match")
      else textMatch txt
    | none => textMatch txt
where
  textMatch (txt : String) : Option String × Option String × String :=
    let toks := _tok txt
    match PRODUCT_CATALOG.find? (fun pc => (_tok pc.1).any (fun t => toks.contains t)) with
    | some (p, colors) =>
      (some p, colors.find? (fun c => toks.contains c), "text match")
    | none => (none, none, "no match")

/-! ### Order step nodes (`order_flow.py`)

Each node mirrors the Python function's branch structure: interrupt check
first, `__RESUME__` handling, prompt emission, then answer processing.
The unreachable duplicated tail after the first `return state` in the
contact nodes is not transcribed. -/

def order_contact_first_name_node (s0 : SessionState) : SessionState :=
  let (s, intr) := _check_interrupt s0
  if intr.isSome then s
  else
    let s := if s.last_user_message = "__RESUME__" then
        { s with last_user_message := "",
                 context_data := { s.context_data with contact_first_name_shown := false } }
      else s
    if !s.context_data.contact_first_name_shown then
      let s := addMsg s "assistant"
        "Great — let's start with your quote request. What's your first name?"
      { s with context_data := { s.context_data with contact_first_name_shown := true },
               last_user_message := "" }
    else if s.last_user_message ≠ "" then
      let first_name := stripStr s.last_user_message
      let s :=
        if first_name ≠ "" then
          let s := { s with
            order := { s.order with contact := { s.order.contact with first_name := some first_name } },
            context_data := { s.context_data with contact_first_name_complete := true } }
          addMsg s "assistant" ("Thanks, " ++ first_name ++ ".")
        else addMsg s "assistant" "Please provide your first name."
      { s with last_user_message := "" }
    else s

def order_contact_last_name_node (s0 : SessionState) : SessionState :=
  let (s, intr) := _check_interrupt s0
  if intr.isSome then s
  else
    let s := if s.last_user_message = "__RESUME__" then
        { s with last_user_message := "",
                 context_data := { s.context_data with contact_last_name_shown := false } }
      else s
    if !s.context_data.contact_last_name_shown then
      let s := addMsg s "assistant" "What's your last name?"
      { s with context_data := { s.context_data with contact_last_name_shown := true },
               last_user_message := "" }
    else if s.last_user_message ≠ "" then
      let last_name := stripStr s.last_user_message
      let s :=
        if last_name ≠ "" then
          let s := { s with
            order := { s.order with contact := { s.order.contact with last_name := some last_name } },
            context_data := { s.context_data with contact_last_name_complete := true } }
          addMsg s "assistant" "Got it."
        else addMsg s "assistant" "Please provide your last name."
      { s with last_user_message := "" }
    else s

def order_contact_email_node (s0 : SessionState) : SessionState :=
  let (s, intr) := _check_interrupt s0
  if intr.isSome then s
  else
    let s := if s.last_user_message = "__RESUME__" then
        { s with last_user_message := "",
                 context_data := { s.context_data with contact_email_shown := false } }
      else s
    if !s.context_data.contact_email_shown then
      let s := addMsg s "assistant"
        "What's your email address? (We'll use this to send your quote)"
      { s with context_data := { s.context_data with contact_email_shown := true },
               last_user_message := "" }
    else if s.last_user_message ≠ "" then
      let email := lowerStr (stripStr s.last_user_message)
      let s :=
        if email ≠ "" && containsSub email "@" then
          let s := { s with
            order := { s.order with contact := { s.order.contact with email := some email } },
            context_data := { s.context_data with contact_email_complete := true } }
          addMsg s "assistant" "Thanks."
        else addMsg s "assistant" "Please provide a valid email address."
      { s with last_user_message := "" }
    else s

def order_contact_phone_node (s0 : SessionState) : SessionState :=
  let (s, intr) := _check_interrupt s0
  if intr.isSome then s
  else
    let s := if s.last_user_message = "__RESUME__" then
        { s with last_user_message := "",
                 context_data := { s.context_data with contact_phone_shown := false } }
      else s
    if !s.context_data.contact_phone_shown then
      let s := addMsg s "assistant"
        "Finally, what's your phone number (with country code, e.g., +92-3xx-xxxxxxx)?"
      { s with context_data := { s.context_data with contact_phone_shown := true },
               last_user_message := "" }
    else if s.last_user_message ≠ "" then
      let phone := stripStr s.last_user_message
      let s :=
        if phone ≠ "" then
          let s := { s with
            order := { s.order with contact := { s.order.contact with phone := some phone } },
            context_data := { s.context_data with contact_phone_complete := true,
                                                  contact_complete := true } }
          addMsg s "assistant" "Perfect, thanks for your contact details."
        else addMsg s "assistant" "Please provide your phone number."
      { s with last_user_message := "" }
    else s

def order_organization_node (s0 : SessionState) : SessionState :=
  let (s, intr) := _check_interrupt s0
  if intr.isSome then s
  else
    let s := if s.last_user_message = "__RESUME__" then
        { s with last_user_message := "",
                 context_data := { s.context_data with org_type_shown := false } }
      else s
    if !s.context_data.org_type_shown then
      let s := addMsg s "assistant"
        "Is this order for a business, organization, or team? Reply **yes** or **personal**."
      { s with context_data := { s.context_data with org_type_shown := true },
               last_user_message := "" }
    else if s.last_user_message ≠ "" && s.context_data.org_type_shown &&
        !s.context_data.org_name_shown then
      let text := lowerStr (stripStr s.last_user_message)
      if containsAny text ["no", "personal"] then
        { s with
          order := { s.order with organization := { is_business := some false, name := none } },
          context_data := { s.context_data with org_complete := true },
          last_user_message := "" }
      else if containsAny text ["yes", "business", "organization", "team"] then
        let s := addMsg s "assistant" "What is the name of your business/organization/team?"
        { s with context_data := { s.context_data with org_name_shown := true },
                 last_user_message := "" }
      else
        let s := addMsg s "assistant"
          "Please reply **Yes** if it's for a business/organization/team, or **No** if personal."
        { s with last_user_message := "" }
    else if s.last_user_message ≠ "" && s.context_data.org_name_shown then
      let nm := stripStr s.last_user_message
      if nm ≠ "" then
        { s with
          order := { s.order with organization := { s.order.organization with
            is_business := some true, name := some nm } },
          context_data := { s.context_data with org_complete := true },
          last_user_message := "" }
      else
        let s := addMsg s "assistant"
          "Please provide the name of your business/organization/team."
        { s with last_user_message := "" }
    else { s with last_user_message := "" }

/-- Choices list of `order_type_node`. -/
def orderTypeChoices : List String :=
  ["Corporate hiring", "School/spirit wear", "Sports team", "Retail resale",
   "Employee uniforms", "Other"]

/-- Python `re.match(r"^\s*([1-6])\s*$", txt)` (and the `1`/`2` variants):
the stripped text is a single digit in the given range. -/
def singleDigitChoice (txt : String) (lo hi : Nat) : Option Nat :=
  match (txt.toList.dropWhile isSpaceChar).span isDigitChar with
  | (d :: [], rest) =>
    if (rest.dropWhile isSpaceChar).isEmpty then
      let n := natOfDigits [d]
      if lo ≤ n && n ≤ hi then some n else none
    else none
  | _ => none

def order_type_node (s0 : SessionState) : SessionState :=
  let (s, intr) := _check_interrupt s0
  if intr.isSome then { s with last_user_message := "" }
  else
    let s := if s.last_user_message = "__RESUME__" then
        { s with last_user_message := "",
                 context_data := { s.context_data with type_question_shown := false } }
      else s
    if s.context_data.type_question_shown && s.last_user_message = "" then s
    else if !s.context_data.type_question_shown then
      let s := addMsg s "assistant"
        ("What type of order is this?\n" ++
         "1) Corporate hiring\n2) School/spirit wear\n3) Sports team\n" ++
         "4) Retail resale\n5) Employee uniforms\n6) Other\n\n" ++
         "Reply with the number or the label.")
      { s with context_data := { s.context_data with type_question_shown := true },
               last_user_message := "" }
    else if s.last_user_message ≠ "" then
      let txt := lowerStr (stripStr s.last_user_message)
      let val : Option String :=
        match singleDigitChoice txt 1 6 with
        | some n => orderTypeChoices.get? (n - 1)
        | none => orderTypeChoices.find? (fun c => containsSub txt (lowerStr c))
      match val with
      | none =>
        let s := addMsg s "assistant" "Please reply with a number 1–6 or a label from the list."
        { s with last_user_message := "" }
      | some v =>
        let s := { s with order := { s.order with order_type := some v },
                          context_data := { s.context_data with type_complete := true } }
        let s := addMsg s "assistant" "Great. What **budget** are you aiming for? (Premium / Value)."
        { s with last_user_message := "" }
    else { s with last_user_message := "" }

def order_budget_node (s0 : SessionState) : SessionState :=
  let (s, intr) := _check_interrupt s0
  if intr.isSome then { s with last_user_message := "" }
  else
    let s := if s.last_user_message = "__RESUME__" then
        { s with last_user_message := "",
                 context_data := { s.context_data with budget_question_shown := false } }
      else s
    if s.context_data.budget_question_shown && s.last_user_message = "" then s
    else if !s.context_data.budget_question_shown then
      let s := addMsg s "assistant"
        ("Choose **Budget Range**:\n" ++
         "1) Premium — top-tier fabrics & finish\n" ++
         "2) Value — best price-to-quality\n" ++
         "Reply 1 or 2, or type Premium/Value.")
      { s with context_data := { s.context_data with budget_question_shown := true },
               last_user_message := "" }
    else if s.last_user_message ≠ "" then
      let txt := lowerStr (stripStr s.last_user_message)
      let val : Option String :=
        if (singleDigitChoice txt 1 1).isSome || containsSub txt "premium" then some "Premium"
        else if (singleDigitChoice txt 2 2).isSome || containsSub txt "value" then some "Value"
        else none
      match val with
      | none =>
        let s := addMsg s "assistant" "Please reply 1 (Premium) or 2 (Value)."
        { s with last_user_message := "" }
      | some v =>
        let s := { s with order := { s.order with budget_range := some v },
                          context_data := { s.context_data with budget_complete := true } }
        let s := addMsg s "assistant"
          "Got it. Are you looking for **Screen Printing** or **Embroidery**? (Reply 1 or 2)"
        { s with last_user_message := "" }
    else { s with last_user_message := "" }

def order_service_node (s0 : SessionState) : SessionState :=
  let (s, intr) := _check_interrupt s0
  if intr.isSome then { s with last_user_message := "" }
  else
    let s := if s.last_user_message = "__RESUME__" then
        { s with last_user_message := "",
                 context_data := { s.context_data with service_question_shown := false } }
      else s
    if s.context_data.service_question_shown && s.last_user_message = "" then s
    else if !s.context_data.service_question_shown then
      let s := addMsg s "assistant"
        ("Choose **Service Type**:\n" ++
         "1) Screen Printing — most common for T-shirts and hoodies\n" ++
         "2) Embroidery — Most common on jackets, polos and hats\n" ++
         "Reply 1 or 2, or type the label.")
      { s with context_data := { s.context_data with service_question_shown := true },
               last_user_message := "" }
    else if s.last_user_message ≠ "" then
      let txt := lowerStr (stripStr s.last_user_message)
      let val : Option String :=
        if (singleDigitChoice txt 1 1).isSome || containsSub txt "screen" then some "Screen Printing"
        else if (singleDigitChoice txt 2 2).isSome || containsSub txt "embroider" then some "Embroidery"
        else none
      match val with
      | none =>
        let s := addMsg s "assistant" "Please reply 1 (Screen Printing) or 2 (Embroidery)."
        { s with last_user_message := "" }
      | some v =>
        let s := { s with order := { s.order with service_type := some v },
                          context_data := { s.context_data with service_complete := true } }
        let s := addMsg s "assistant"
          ("Great. Choose **Apparel Type** (you can also type a product directly later):\n" ++
           "1) T-Shirt\n2) Hoodie\n3) Hat\n4) Polo\n\nReply with a number.")
        { s with last_user_message := "" }
    else { s with last_user_message := "" }

def order_apparel_node (s0 : SessionState) : SessionState :=
  let (s, intr) := _check_interrupt s0
  if intr.isSome then { s with last_user_message := "" }
  else
    let s := if s.last_user_message = "__RESUME__" then
        { s with last_user_message := "",
                 context_data := { s.context_data with apparel_question_shown := false } }
      else s
    if s.context_data.apparel_question_shown && s.last_user_message = "" then s
    else if !s.context_data.apparel_question_shown then
      let s := addMsg s "assistant"
        ("Which **product** would you like?\n" ++
         "1) T-Shirt\n2) Hoodie\n3) Hat\n4) Polo\n\n" ++
         "You can reply with a number, or name the product like: `Hoodie in Navy`.")
      { s with context_data := { s.context_data with apparel_question_shown := true },
               last_user_message := "" }
    else if s.last_user_message ≠ "" then
      match parse_product_and_color s.last_user_message with
      | (none, _, _) =>
        let s := addMsg s "assistant"
          ("Sorry, I couldn't match that. Pick one by number:\n" ++
           "1) T-Shirt\n2) Hoodie\n3) Hat\n4) Polo" ++
           "\n\nYou can also write like: `2, Navy`.")
        { s with last_user_message := "" }
      | (some product, color, _) =>
        let s := { s with order := { s.order with
          apparel_category := some product,
          product_name := some product,
          color := match color with | some c => some c | none => s.order.color } }
        let s := { s with context_data := { s.context_data with apparel_complete := true } }
        let colors := String.intercalate ", "
          (((PRODUCT_CATALOG.find? (fun pc => pc.1 = product)).map
              (fun pc => pc.2.map titleStr)).getD [])
        let s := addMsg s "assistant"
          ("Selected: **" ++ titleStr product ++ "**" ++
           (match s.order.color with
            | some c => " in **" ++ titleStr c ++ "**."
            | none => ".") ++
           "\nAvailable colors: " ++ colors ++ "\n" ++
           "If you want a specific color, type it now; otherwise say **Continue**.")
        { s with last_user_message := "" }
    else { s with last_user_message := "" }

def order_product_node (s0 : SessionState) : SessionState :=
  let (s, intr) := _check_interrupt s0
  if intr.isSome then { s with last_user_message := "" }
  else
    let s := if s.last_user_message = "__RESUME__" then
        { s with last_user_message := "",
                 context_data := { s.context_data with product_question_shown := false } }
      else s
    if s.context_data.product_question_shown && s.last_user_message = "" then s
    else if !s.context_data.product_question_shown then
      if (s.order.product_name).isSome && (s.order.color).isNone then
        let s := addMsg s "assistant"
          ("Any preferred **color** for " ++ titleStr ((s.order.product_name).getD "") ++ "?\n" ++
           "Please choose from the color selector below, or say **No preference**.\n" ++
           "[[COLOR_PICKER]]")
        { s with context_data := { s.context_data with product_question_shown := true },
                 last_user_message := "" }
      else
        { s with context_data := { s.context_data with product_complete := true },
                 last_user_message := "" }
    else if s.last_user_message ≠ "" then
      let raw := stripStr s.last_user_message
      let txt := lowerStr raw
      let s :=
        if (s.order.product_name).isSome then
          if containsSub txt "no preference" || containsSub txt "any" then
            { s with order := { s.order with color := none } }
          else { s with order := { s.order with color := some raw } }
        else s
      { s with context_data := { s.context_data with product_complete := true },
               last_user_message := "" }
    else { s with last_user_message := "" }

def order_logo_node (o : Oracles) (s0 : SessionState) : SessionState :=
  let (s, intr) := _check_interrupt s0
  if intr.isSome then { s with last_user_message := "" }
  else
    let s := if s.last_user_message = "__RESUME__" then
        { s with last_user_message := "",
                 context_data := { s.context_data with logo_complete := false } }
      else s
    if s.context_data.logo_complete then { s with last_user_message := "" }
    else if s.context_data.logo_question_shown && s.last_user_message = "" then s
    else if !s.context_data.logo_question_shown then
      let s := { s with context_data := { s.context_data with
        logo_question_shown := true, upload_key := some o.uuidHex, awaiting_upload := true } }
      let s := addMsg s "assistant"
        ("Please upload your logo/artwork file.\n" ++
         "Supported formats: PNG, JPG, SVG, PDF, AI, EPS, PSD\n" ++
         "Or type **Skip** if you don't have a logo yet.")
      { s with last_user_message := "" }
    else if s.last_user_message ≠ "" then
      let txt := lowerStr (stripStr s.last_user_message)
      -- the `continue` branch only advances when `logo_complete` is already
      -- true, which the second branch above has excluded here
      if txt = "continue" && s.context_data.logo_complete then
        { s with last_user_message := "" }
      else if txt = "skip" || txt = "no" || txt = "none" || txt = "no logo" then
        let s := { s with context_data := { s.context_data with
          logo_complete := true, awaiting_upload := false } }
        let s := addMsg s "assistant" "No problem! Continuing without a logo."
        { s with last_user_message := "" }
      else
        let s := addMsg s "assistant"
          "Please upload your logo file using the button, or type **Skip**."
        { s with last_user_message := "" }
    else { s with last_user_message := "" }

/-- Python `str.capitalize()` (ASCII): first character upcased, the rest
lowercased. -/
def capitalizeStr (s : String) : String :=
  match s.toList with
  | [] => ""
  | c :: rest =>
    String.mk ((if isAsciiLower c then Char.ofNat (c.toNat - 32) else c) :: rest.map lowerChar)

/-- The location maps of `order_decoration_location_node`, by service. -/
def locMapFor (service : Option String) : List (String × String) :=
  if service = some "Screen Printing" then
    [("1", "Full Front"), ("2", "Full Back"), ("3", "Left Chest"), ("4", "Right Chest"),
     ("5", "Left Sleeve"), ("6", "Right Sleeve"), ("7", "Small Upper Back"), ("8", "Front Center")]
  else if service = some "Embroidery" then
    [("1", "Front Left Panel"), ("2", "Front Right Panel"), ("3", "Back"), ("4", "Front Center")]
  else
    [("1", "Left Chest"), ("2", "Right Chest"), ("3", "Front Center"), ("4", "Back")]

def locationsTextFor (service : Option String) : String :=
  if service = some "Screen Printing" then
    "1.Full Front \n2.Full Back \n3. Left Chest\n4. Right Chest\n5. Left Sleeve\n6. Right Sleeve\n7. Small Upper Back \n8. Front Center\n"
  else if service = some "Embroidery" then
    "1. Front Left Panel\n2. Front Right Panel\n3. Back\n4. Front Center"
  else
    "1. Left Chest\n2. Right Chest\n3. Front Center\n4. Back"

def order_decoration_location_node (s0 : SessionState) : SessionState :=
  let (s, intr) := _check_interrupt s0
  if intr.isSome then s
  else
    let s := if s.last_user_message = "__RESUME__" then
        { s with last_user_message := "",
                 context_data := { s.context_data with decoration_location_shown := false } }
      else s
    if !s.context_data.decoration_location_shown then
      let s := { s with context_data := { s.context_data with
        loc_map := locMapFor s.order.service_type } }
      let s := addMsg s "assistant"
        ("Where would you like the decoration/print to be placed?\n" ++
         "Common locations:\n" ++ locationsTextFor s.order.service_type ++
         "\nReply with the number or type the location.")
      { s with context_data := { s.context_data with decoration_location_shown := true },
               last_user_message := "" }
    else if s.last_user_message ≠ "" then
      let text := lowerStr (stripStr s.last_user_message)
      let location : Option String :=
        match (s.context_data.loc_map.find? (fun kv => kv.1 = text)).map (·.2) with
        | some v => some v
        | none => if text ≠ "" then some (capitalizeStr text) else none
      match location with
      | some loc =>
        { s with order := { s.order with decoration_location := some loc },
                 context_data := { s.context_data with decoration_location_complete := true },
                 last_user_message := "" }
      | none =>
        let s := addMsg s "assistant" "Please reply with a valid number or location name."
        { s with last_user_message := "" }
    else s

def order_decoration_colors_node (s0 : SessionState) : SessionState :=
  let (s, intr) := _check_interrupt s0
  if intr.isSome then { s with last_user_message := "" }
  else
    let s := if s.last_user_message = "__RESUME__" then
        { s with last_user_message := "",
                 context_data := { s.context_data with decoration_colors_shown := false } }
      else s
    if s.context_data.decoration_colors_shown && s.last_user_message = "" then s
    else if !s.context_data.decoration_colors_shown then
      let s := addMsg s "assistant"
        ("How many **colors** will be in your design/decoration?\n" ++
         "(This affects screen printing pricing)\n\n" ++
         "Enter a number (e.g., 1, 2, 3) or say **Not sure** if you don't know yet.")
      { s with context_data := { s.context_data with decoration_colors_shown := true },
               last_user_message := "" }
    else if s.last_user_message ≠ "" then
      let txt := lowerStr (stripStr s.last_user_message)
      if txt = "skip" || txt = "not sure" || txt = "don't know" || txt = "unsure" then
        let s := { s with order := { s.order with decoration_colors := none },
                          context_data := { s.context_data with decoration_colors_complete := true } }
        let s := addMsg s "assistant" "Thanks. I’ve saved your decoration colors."
        { s with last_user_message := "" }
      else
        match digitRuns s.last_user_message.toList with
        | [] =>
          let s := addMsg s "assistant"
            "Please provide a number (e.g., 1, 2, 3) or say **Not sure**."
          { s with last_user_message := "" }
        | n :: _ =>
          let s := { s with order := { s.order with decoration_colors := some n },
                            context_data := { s.context_data with decoration_colors_complete := true } }
          let s := addMsg s "assistant" "Thanks. I’ve saved your decoration colors."
          { s with last_user_message := "" }
    else { s with last_user_message := "" }

/-- Python `re.match(r"^\s*([0-9]+)\s*$", txt)` as a number. -/
def pyMatchIntLine (txt : String) : Option Nat :=
  let (ds, rest) := (txt.toList.dropWhile isSpaceChar).span isDigitChar
  if !ds.isEmpty && (rest.dropWhile isSpaceChar).isEmpty then some (natOfDigits ds) else none

/-- The quantity range map of `order_quantity_node`, by service type
(lowercased `service_type`, substring tests as in the source). -/
def rangeMapFor (service : String) : List (Nat × String) :=
  if containsSub service "screen" then
    [(1, "24-50"), (2, "51-100"), (3, "101-200"), (4, "201-350"), (5, "351+")]
  else if containsSub service "embroider" then
    [(1, "6-10"), (2, "11-20"), (3, "21-50"), (4, "51-100"), (5, "101+")]
  else
    [(1, "0-10"), (2, "11-20"), (3, "21-50"), (4, "51-100"), (5, "101-200"), (6, "201+")]

def rangeOptionsTextFor (service : String) : String :=
  if containsSub service "screen" then
    "1. 24-50\n2. 51-100\n3. 101-200\n4. 201-350\n5. 351+\n"
  else if containsSub service "embroider" then
    "1. 6-10\n2. 11-20\n3. 21-50\n4. 51-100\n5. 101+\n"
  else
    "1. 0-10\n2. 11-20\n3. 21-50\n4. 51-100\n5. 101-200\n6. 201+\n"

def order_quantity_node (s0 : SessionState) : SessionState :=
  let (s, intr) := _check_interrupt s0
  if intr.isSome then { s with last_user_message := "" }
  else
    let s := if s.last_user_message = "__RESUME__" then
        { s with last_user_message := "",
                 context_data := { s.context_data with qty_question_shown := false } }
      else s
    let service := lowerStr ((s.order.service_type).getD "")
    let range_map := rangeMapFor service
    let max_option := (range_map.map (·.1)).foldl max 0
    if s.context_data.qty_question_shown && s.last_user_message = "" then s
    else if !s.context_data.qty_question_shown then
      let s := addMsg s "assistant"
        ("Do you know the exact sizes and quantities you are interested in? " ++
         "If not, pick from the range that is most accurate:\n" ++
         rangeOptionsTextFor service ++
         "\nReply **yes** if you know exact, or a number 1 to " ++ toString max_option ++
         " for the range.")
      { s with context_data := { s.context_data with qty_question_shown := true },
               last_user_message := "" }
    else if s.last_user_message ≠ "" then
      let txt := lowerStr (stripStr s.last_user_message)
      if txt = "yes" || txt = "y" || txt = "yeah" || txt = "yep" || txt = "sure" then
        let s := { s with context_data := { s.context_data with
            exact_sizes_mode := true, exact_sizes_started := true, sizes_complete := false,
            used_range_path := false, size_step := 0, sizes_collected := [],
            qty_complete := true } }
        { s with last_user_message := "" }
      else
        match pyMatchIntLine txt with
        | none =>
          let s := addMsg s "assistant"
            ("Please reply **yes** for exact sizes, or a number from 1 to " ++
             toString max_option ++ " for the range.")
          { s with last_user_message := "" }
        | some idx =>
          match (range_map.find? (fun kv => kv.1 = idx)).map (·.2) with
          | none =>
            let s := addMsg s "assistant"
              ("Please choose a valid option from 1 to " ++ toString max_option ++ ".")
            { s with last_user_message := "" }
          | some range_str =>
            let s := { s with
              order := { s.order with total_quantity := some range_str, sizes := [] },
              context_data := { s.context_data with
                used_range_path := true, qty_complete := true, sizes_complete := true } }
            let s := addMsg s "assistant"
              ("Perfect. I will note your total quantity as **" ++ range_str ++ "**.")
            { s with last_user_message := "" }
    else { s with last_user_message := "" }

/-- The size sequence of `order_sizes_node`: (key, label) pairs. -/
def sizeSequence : List (String × String) :=
  [("S", "Small"), ("M", "Medium"), ("L", "Large"), ("XL", "XL"),
   ("2XL", "2XL (XXL)"), ("3XL", "3XL (XXXL)"), ("4XL", "4XL")]

/-- Overwrite (`sizes_collected[key] = qty`, dictionary assignment). -/
def setQty : List (String × Nat) → String → Nat → List (String × Nat)
  | [], k, q => [(k, q)]
  | (k', v) :: rest, k, q =>
    if k' = k then (k', q) :: rest else (k', v) :: setQty rest k q

/-- The bucket mapping of `order_sizes_node`: numeric total to range
string, by service type. -/
def bucketRange (service : String) (total : Nat) : String :=
  if containsSub service "screen" then
    if total ≤ 50 then "24-50"
    else if total ≤ 100 then "51-100"
    else if total ≤ 200 then "101-200"
    else if total ≤ 350 then "201-350"
    else "351+"
  else if containsSub service "embroider" then
    if total ≤ 10 then "6-10"
    else if total ≤ 20 then "11-20"
    else if total ≤ 50 then "21-50"
    else if total ≤ 100 then "51-100"
    else "101+"
  else
    if total ≤ 10 then "0-10"
    else if total ≤ 20 then "11-20"
    else if total ≤ 50 then "21-50"
    else if total ≤ 100 then "51-100"
    else if total ≤ 200 then "101-200"
    else "201+"

def order_sizes_node (s0 : SessionState) : SessionState :=
  let (s, intr) := _check_interrupt s0
  if intr.isSome then { s with last_user_message := "" }
  else if !s.context_data.exact_sizes_mode then
    { s with context_data := { s.context_data with sizes_complete := true },
             last_user_message := "" }
  else
    let s := if s.last_user_message = "__RESUME__" then
        { s with last_user_message := "",
                 context_data := { s.context_data with sizes_question_shown := false } }
      else s
    if s.context_data.sizes_question_shown && s.last_user_message = "" then s
    else
      -- process an answer for the current size, when one is present
      let processed : Option SessionState :=
        if s.context_data.sizes_question_shown && s.last_user_message ≠ "" then
          let txt := lowerStr (stripStr s.last_user_message)
          let qty? : Option Nat :=
            if txt = "skip" || txt = "none" || txt = "no" || txt = "0" then some 0
            else match pyIntOfString txt with
              | some q => if q < 0 then none else some q.toNat
              | none => none
          match qty? with
          | none => none
          | some qty =>
            let step := s.context_data.size_step
            let collected :=
              match sizeSequence.get? step with
              | some (key, _) => setQty s.context_data.sizes_collected key qty
              | none => s.context_data.sizes_collected
            let s := { s with context_data := { s.context_data with
                sizes_collected := collected, size_step := step + 1,
                sizes_question_shown := false } }
            some { s with last_user_message := "" }
        else some s
      match processed with
      | none =>
        let s := addMsg s "assistant" "Please reply with a number, 0, or type **skip**."
        { s with last_user_message := "" }
      | some s =>
        if sizeSequence.length ≤ s.context_data.size_step then
          let total := (s.context_data.sizes_collected.map (·.2)).foldl (· + ·) 0
          let service := lowerStr ((s.order.service_type).getD "")
          let range_str := bucketRange service total
          let szs := (s.context_data.sizes_collected.filter (fun kv => 0 < kv.2)).map
            (fun kv => SizeQuantity.mk kv.1 kv.2)
          let s := { s with
            order := { s.order with total_quantity := some range_str, sizes := szs },
            context_data := { s.context_data with
              qty_complete := true, sizes_complete := true,
              exact_sizes_started := true, used_range_path := false } }
          let breakdown :=
            let b := String.intercalate ", "
              (s.order.sizes.map (fun sq => sq.size ++ ":" ++ toString sq.quantity))
            if b = "" then "None above 0" else b
          let s := addMsg s "assistant"
            ("All done. Total pieces: " ++ toString total ++ " (" ++ range_str ++ ")\n" ++
             "Breakdown: " ++ breakdown ++ "\n\nMoving on...")
          { s with last_user_message := "" }
        else
          let label := ((sizeSequence.get? s.context_data.size_step).map (·.2)).getD ""
          let product_label := (s.order.product_name).getD "shirt"
          let plural := if product_label.toList.getLast? = some 's' then product_label
            else product_label ++ "s"
          let s := addMsg s "assistant"
            ("How many " ++ plural ++ " for size **" ++ label ++ "**? " ++
             "You can reply with a number, 0, or type **skip**.")
          { s with context_data := { s.context_data with sizes_question_shown := true },
                   last_user_message := "" }

def order_delivery_node (s0 : SessionState) : SessionState :=
  let (s, intr) := _check_interrupt s0
  if intr.isSome then { s with last_user_message := "" }
  else
    let s := if s.last_user_message = "__RESUME__" then
        { s with last_user_message := "",
                 context_data := { s.context_data with delivery_question_shown := false } }
      else s
    if s.context_data.delivery_question_shown && s.last_user_message = "" then s
    else if !s.context_data.delivery_question_shown then
      let s := addMsg s "assistant" "Do you prefer **Delivery** or **Pickup**?"
      { s with context_data := { s.context_data with delivery_question_shown := true },
               last_user_message := "" }
    else if s.last_user_message ≠ "" then
      let txt := lowerStr (stripStr s.last_user_message)
      if containsSub txt "deliver" then
        let s := { s with order := { s.order with delivery_option := some "Delivery" } }
        let s := addMsg s "assistant"
          "Please share the **delivery address** (Street, City, Postal Code, Country)."
        { s with context_data := { s.context_data with awaiting_address := true },
                 last_user_message := "" }
      else if containsSub txt "pickup" then
        let s := { s with order := { s.order with delivery_option := some "Pick Up" },
                          context_data := { s.context_data with delivery_complete := true } }
        let s := addMsg s "assistant" "Noted for **Pickup**. I’ll summarize your request next."
        { s with last_user_message := "" }
      else
        let s := addMsg s "assistant" "Please say **Delivery** or **Pickup**."
        { s with last_user_message := "" }
    else { s with last_user_message := "" }

def order_delivery_address_node (s0 : SessionState) : SessionState :=
  let (s, intr) := _check_interrupt s0
  if intr.isSome then { s with last_user_message := "" }
  else
    let s := if s.last_user_message = "__RESUME__" then
        { s with last_user_message := "",
                 context_data := { s.context_data with address_question_shown := false } }
      else s
    if s.context_data.address_question_shown && s.last_user_message = "" then s
    else if !s.context_data.awaiting_address then
      { s with context_data := { s.context_data with delivery_complete := true },
               last_user_message := "" }
    else if !s.context_data.address_question_shown then
      let s := addMsg s "assistant" "Please send your full address in one line."
      { s with context_data := { s.context_data with address_question_shown := true },
               last_user_message := "" }
    else if s.last_user_message ≠ "" then
      let addr := String.mk ((stripStr s.last_user_message).toList.take 240)
      let s := { s with
        order := { s.order with delivery_address := some addr },
        context_data := { s.context_data with awaiting_address := false,
                                              delivery_complete := true } }
      let s := addMsg s "assistant" "Thanks! Address noted. I’ll summarize your request next."
      { s with last_user_message := "" }
    else { s with last_user_message := "" }

/-- The fixed color palette accepted by the summary change handler. -/
def validColors : List String :=
  ["Aquatic Blue", "Ash", "Athletic Heater", "Athletic Maroon", "Candy Pink", "Bright Aqua",
   "Cardinal", "Carolina Blue", "Charcoal", "Clover Green", "Coyote Brown", "Dark Chocolate Brown",
   "Dark Green", "Dark Heather Grey", "Gold", "Graphite Heather", "Heather Athletic Maroon",
   "Heather Dark Choc Brown", "Heather Navy", "Heather Purple", "Heather Red", "Heather Royal",
   "Heather Sangria", "Jet Black", "Kelly", "Light Blue", "Lime", "Medium Grey", "Natural", "Navy",
   "Neon Blue", "Neon Green", "Neon Orange", "Neon Pink", "Neon Yellow", "Olive", "Olive Drab Green",
   "Orange", "Purple", "Red", "Royal", "Sand", "Sangria", "Sapphire", "Silver", "Steel Blue", "Teal",
   "Team Purple", "True Royal", "White", "Woodland Brown", "Yellow"]

/-- Python `str.isdigit()` (ASCII fragment). -/
def isDigitStr (s : String) : Bool := !s.toList.isEmpty && s.toList.all isDigitChar

/-- Application of one summary change `{field, new_value}` to the order,
mirroring the per-field validation of `order_summary_node`; `text` is the
lowercased user message (several validations test substrings of it).
Returns the updated order and whether this change counted as an update; an
`Except.error` models the `ValueError` that `parse_sizes` raises inside
the loop for a sizes change whose value matches the quantity-label
pattern. -/
def applyOneChange (text : String) (ord : OrderDetails) (field nv : String) :
    Except String (OrderDetails × Bool) :=
  if field = "first_name" then
    .ok (if nv.length > 0 then
      ({ ord with contact := { ord.contact with first_name := some nv } }, true) else (ord, false))
  else if field = "last_name" then
    .ok (if nv.length > 0 then
      ({ ord with contact := { ord.contact with last_name := some nv } }, true) else (ord, false))
  else if field = "email" then
    .ok (if containsSub nv "@" && containsSub nv "." then
      ({ ord with contact := { ord.contact with email := some nv } }, true) else (ord, false))
  else if field = "phone" then
    .ok (if 10 ≤ nv.length then
      ({ ord with contact := { ord.contact with phone := some nv } }, true) else (ord, false))
  else if field = "organization" then
    .ok ({ ord with organization := { ord.organization with name := some nv } }, true)
  else if field = "order_type" then
    .ok (if orderTypeChoices.contains nv then
      ({ ord with order_type := some nv }, true) else (ord, false))
  else if field = "budget_range" then
    .ok (if containsSub text "budget" && containsSub text "range" &&
        (titleStr nv = "Premium" || titleStr nv = "Value") then
      ({ ord with budget_range := some (titleStr nv) }, true) else (ord, false))
  else if field = "service_type" then
    .ok (if containsSub text "service" && containsSub text "type" &&
        (titleStr nv = "Screen Printing" || titleStr nv = "Embroidery") then
      ({ ord with service_type := some (titleStr nv) }, true) else (ord, false))
  else if field = "apparel_category" then
    .ok (if containsSub text "apparel" && containsSub text "category" then
      ({ ord with apparel_category := some nv }, true) else (ord, false))
  else if field = "product_name" then
    .ok (if containsSub text "product" then
      ({ ord with product_name := some nv }, true) else (ord, false))
  else if field = "color" then
    let normalized := titleStr (stripStr nv)
    .ok (if validColors.contains normalized then
      ({ ord with color := some normalized }, true) else (ord, false))
  else if field = "decoration_location" then
    .ok ({ ord with decoration_location := some nv }, true)
  else if field = "decoration_colors" then
    .ok (match pyIntOfString nv with
      | some n => if 1 ≤ n && n ≤ 4 then ({ ord with decoration_colors := some n.toNat }, true)
          else (ord, false)
      | none => (ord, false))
  else if field = "total_quantity" then
    .ok (if containsSub text "quantity" && isDigitStr nv then
      ({ ord with total_quantity := some nv }, true) else (ord, false))
  else if field = "sizes" then
    if containsSub text "size" then
      match parse_sizes nv with
      | .error e => .error e
      | .ok dict => .ok ({ ord with sizes := dict.map (fun kv => SizeQuantity.mk kv.1 kv.2) }, true)
    else .ok (ord, false)
  else if field = "delivery_option" then
    .ok (if containsSub text "delivery" && (titleStr nv = "Delivery" || titleStr nv = "Pickup") then
      ({ ord with delivery_option := some (titleStr nv) }, true) else (ord, false))
  else if field = "delivery_address" then
    .ok (if nv.length > 0 then ({ ord with delivery_address := some nv }, true) else (ord, false))
  else .ok (ord, false)

/-- The change loop of `order_summary_node`: applies the changes in order,
recording whether anything updated and whether a logo change was asked
for.  The final flag reports an exception escaping the loop (from
`parse_sizes`): the mutations already applied persist, the rest of the
list is not processed. -/
def applyChanges (text : String) : OrderDetails → Bool → Bool →
    List (String × String) → OrderDetails × Bool × Bool × Bool
  | ord, updated, logoReq, [] => (ord, updated, logoReq, false)
  | ord, updated, logoReq, (field, nv) :: rest =>
    if field = "" || nv = "" then applyChanges text ord updated logoReq rest
    else
      let logoReq := logoReq || field = "logo"
      match applyOneChange text ord field nv with
      | .error _ => (ord, updated, logoReq, true)
      | .ok (ord', upd) => applyChanges text ord' (updated || upd) logoReq rest

/-- `order_summary_node` from `order_flow.py`: show the summary once, then
classify the reply; confirm sends the summary to the customer (`smtp`
oracle) and moves to post-confirmation, cancel ends, anything else goes
through the LLM change parser (`llmChanges` oracle, `none` for an
exception or unparseable output). -/
def order_summary_node (o : Oracles) (s0 : SessionState) : SessionState :=
  let (s, intr) := _check_interrupt s0
  if intr.isSome then s
  else if s.last_user_message = "__RESUME__" then { s with last_user_message := "" }
  else if !s.context_data.summary_shown then
    let s := addMsg s "assistant"
      (_render_summary_text s ++
       "\n\nIf this looks good, reply Confirm. To change anything, say for example `Change color to Black` or `Update quantity to 50`. To cancel, say Cancel.")
    { s with context_data := { s.context_data with summary_shown := true },
             last_user_message := "" }
  else if s.last_user_message ≠ "" then
    let text := lowerStr (stripStr s.last_user_message)
    let intent := o.classifyIntent text
    if intent = .YES || containsSub text "yes" || containsSub text "confirm" then
      let (success, s) := _send_summary_to_customer o s
      let s := { s with
        context_data := { s.context_data with order_confirmed := true, order_complete := true },
        current_state := .ORDER_POST_CONFIRMATION }
      let s := addMsg s "assistant"
        ("Thanks for submitting your information. " ++
         "Our team will respond with a quote within 8 business hours. " ++
         "If you have any questions, please call us at (425) 303-3381. " ++
         (if success then "A summary has been sent to your email."
          else "We will process your request shortly!") ++
         "\n\nWhat would you like to do next?\n\n" ++
         "• **Main menu** - Place another quote request\n" ++
         "• **End** - Finish our chat")
      { s with last_user_message := "" }
    else if intent = .NO || containsSub text "no" || containsSub text "cancel" then
      let s := { s with current_state := .END }
      let s := addMsg s "assistant" "Okay, canceling the order. Thanks!"
      { s with last_user_message := "" }
    else
      match o.llmChanges text with
      | none =>
        let s := addMsg s "assistant" "Sorry, error processing your request. Please try again."
        { s with last_user_message := "" }
      | some changes =>
        match applyChanges text s.order false false changes with
        | (ord, _, _, true) =>
          -- exception escaped the loop: partial updates persist
          let s := { s with order := ord }
          let s := addMsg s "assistant" "Sorry, error processing your request. Please try again."
          { s with last_user_message := "" }
        | (ord, updated, logoReq, false) =>
          let s := { s with order := ord }
          let s := if logoReq then
              addMsg s "assistant"
                "Sorry, the logo cannot be changed at this stage. You can update everything else, but not the logo."
            else s
          if updated then
            let s := addMsg s "assistant"
              ("Updated! Here's the new summary:\n" ++ _render_summary_text s ++
               "\n\nDoes this look good now? Reply **Confirm** to confirm, or specify more changes.")
            { s with last_user_message := "" }
          else if !logoReq then
            let (s2, intr2) := _check_interrupt s
            if intr2.isSome then s2
            else
              let s2 := addMsg s2 "assistant"
                "Sorry, I couldn't understand that change. Please make sure you are specifying a valid field & input to update.. Or reply **yes** to confirm."
              { s2 with last_user_message := "" }
          else { s with last_user_message := "" }
  else { s with last_user_message := "" }

/-! ### Side flows (`welcome.py`, `main_menu.py`, `product_questions.py`,
`wants_human.py`, `end_conversation.py`) -/

def welcome_node (s : SessionState) : SessionState :=
  let s := addMsg s "assistant"
    "Hey there! I'd love to help with any questions you have. I can also help you place a quote request if you want pricing.\n\nHow can I help you?"
  { s with current_state := .MAIN_MENU }

/-- `_keyword_fallback` from `main_menu.py`. -/
def _keyword_fallback (text : String) : Option Intent :=
  let t := lowerStr text
  if containsAny t ["product", "price", "pricing", "cost", "shirt", "hoodie",
      "embroidery", "screen print", "minimum", "delivery",
      "turnaround", "rush", "payment", "design", "logo",
      "dtf", "transfer", "ink", "color", "size"] then
    some .HAS_QUESTIONS_ABOUT_PRODUCT
  else if containsAny t ["order", "quote", "place order", "get a quote"] then
    some .PLACE_ORDER
  else if containsAny t ["human", "agent", "representative", "call"] then
    some .WANTS_HUMAN
  else if containsAny t ["end", "cancel", "stop", "goodbye", "bye"] then
    some .END_CONVERSATION
  else none

/-- `main_menu_node` from `main_menu.py`.  The classifier call is the
`classifyMenu` oracle: `some i` is the resolved intent (an invalid
classifier value resolves to `NO_MATCH` inside the source's own
fallback-to-`NO_MATCH` handling), `none` models an exception, which falls
back to `_keyword_fallback`. -/
def main_menu_node (o : Oracles) (s : SessionState) : SessionState :=
  if !s.context_data.main_menu_prompted then
    let s := addMsg s "assistant"
      ("Hey there! I'd love to help with any questions you have. " ++
       "I can also help you place a quote request if you want pricing.\n\n" ++
       "How can I help you?")
    { s with context_data := { s.context_data with main_menu_prompted := true },
             last_user_message := "" }
  else if s.last_user_message ≠ "" then
    let intent := match o.classifyMenu s.last_user_message with
      | some i => i
      | none => (_keyword_fallback s.last_user_message).getD .NO_MATCH
    let s := { s with classified_intent := some intent }
    if intent = .HAS_QUESTIONS_ABOUT_PRODUCT then
      let s := { s with current_state := .HAS_QUESTIONS_ABOUT_PRODUCT }
      let s := addMsg s "assistant" "I can help answer your product questions!"
      { s with last_user_message := "" }
    else if intent = .PLACE_ORDER then
      let s := { s with current_state := .ORDER_CONTACT }
      let s := addMsg s "assistant" "Great — let's start your quote request."
      { s with last_user_message := "" }
    else if intent = .WANTS_HUMAN then
      let s := { s with current_state := .WANTS_HUMAN }
      let s := addMsg s "assistant" "Sure — I’ll connect you with a person."
      { s with last_user_message := "" }
    else if intent = .END_CONVERSATION then
      let s := { s with current_state := .END }
      let s := addMsg s "assistant" "Okay, ending our chat now. Thanks!"
      { s with last_user_message := "" }
    else
      let s := addMsg s "assistant"
        "Hi! Ask me anything about apparel, printing, pricing, or say **I want to order** to start a quote."
      { s with current_state := .MAIN_MENU, last_user_message := "" }
  else
    { s with current_state := .MAIN_MENU, last_user_message := "" }

def route_from_main_menu (s : SessionState) : String :=
  if s.current_state = .ORDER_CONTACT then "order_contact"
  else if s.current_state = .HAS_QUESTIONS_ABOUT_PRODUCT then "product_questions"
  else if s.current_state = .WANTS_HUMAN then "wants_human"
  else if s.current_state = .END then "end_conversation"
  else "end"

/-- `_reset_question_flag_for_state` from `product_questions.py`.  The
`ORDER_ORGANIZATION` entry maps to a tuple key, so the reset writes a
tuple-keyed entry and neither organization flag changes (and the source
dict has no `ORDER_TYPE` key: its line was swallowed by a trailing
comment); states missing from the map reset nothing. -/
def _reset_question_flag_for_state (s : SessionState) (cs : ConversationState) : SessionState :=
  match cs with
  | .ORDER_CONTACT_FIRST_NAME =>
    { s with context_data := { s.context_data with contact_first_name_shown := false } }
  | .ORDER_CONTACT_LAST_NAME =>
    { s with context_data := { s.context_data with contact_last_name_shown := false } }
  | .ORDER_CONTACT_EMAIL =>
    { s with context_data := { s.context_data with contact_email_shown := false } }
  | .ORDER_CONTACT_PHONE =>
    { s with context_data := { s.context_data with contact_phone_shown := false } }
  | .ORDER_BUDGET =>
    { s with context_data := { s.context_data with budget_question_shown := false } }
  | .ORDER_SERVICE =>
    { s with context_data := { s.context_data with service_question_shown := false } }
  | .ORDER_APPAREL =>
    { s with context_data := { s.context_data with apparel_question_shown := false } }
  | .ORDER_PRODUCT =>
    { s with context_data := { s.context_data with product_question_shown := false } }
  | .ORDER_LOGO =>
    { s with context_data := { s.context_data with logo_question_shown := false } }
  | .ORDER_DECORATION_LOCATION =>
    { s with context_data := { s.context_data with decoration_location_shown := false } }
  | .ORDER_DECORATION_COLORS =>
    { s with context_data := { s.context_data with decoration_colors_shown := false } }
  | .ORDER_QUANTITY =>
    { s with context_data := { s.context_data with qty_question_shown := false } }
  | .ORDER_SIZES =>
    { s with context_data := { s.context_data with sizes_question_shown := false } }
  | .ORDER_DELIVERY =>
    { s with context_data := { s.context_data with delivery_question_shown := false } }
  | _ => s

/-- `product_questions_node` from `product_questions.py` (`rag` oracle for
`retrieve_answer`; `none` models an exception). -/
def product_questions_node (o : Oracles) (s : SessionState) : SessionState :=
  if !s.context_data.product_question_prompted then
    let s :=
      if s.context_data.order_interrupted then s
      else addMsg s "assistant"
        ("I can help answer questions about our products and services! " ++
         "What would you like to know about? For example:\n" ++
         "• Pricing and quotes\n" ++
         "• Shirt styles and recommendations\n" ++
         "• Order minimums and turnaround times\n" ++
         "• Screen printing vs embroidery\n" ++
         "• Payment and delivery options\n\n" ++
         "Just ask your question!")
    { s with context_data := { s.context_data with product_question_prompted := true },
             last_user_message := "" }
  else if s.last_user_message ≠ "" then
    let user_question := stripStr s.last_user_message
    if containsAny (lowerStr user_question) ["done", "finished", "back", "menu", "main menu"] then
      if s.context_data.order_interrupted then
        let s := addMsg s "assistant"
          ("Got it! Would you like to **continue your order** where you left off, " ++
           "or return to the **main menu**?\n\n" ++
           "Reply:\n" ++
           "• **Continue order** - Resume your quote request\n" ++
           "• **Main** - For Start fresh")
        { s with context_data := { s.context_data with awaiting_resume_decision := true },
                 last_user_message := "" }
      else
        let s := addMsg s "assistant" "Sure! Returning to the main menu. How else can I help you?"
        { s with current_state := .MAIN_MENU,
                 context_data := { s.context_data with product_question_prompted := false },
                 last_user_message := "" }
    else if s.context_data.awaiting_resume_decision &&
        (containsSub (lowerStr user_question) "continue" ||
         containsSub (lowerStr user_question) "order") then
      let resume_state := (s.interrupted_from).getD .ORDER_CONTACT
      let s := _reset_question_flag_for_state s resume_state
      let s := { s with context_data := { s.context_data with
        order_interrupted := false, awaiting_resume_decision := false,
        product_question_prompted := false } }
      { s with current_state := resume_state, interrupted_from := none,
               last_user_message := "__RESUME__" }
    else if s.context_data.awaiting_resume_decision &&
        (containsSub (lowerStr user_question) "main menu" ||
         containsSub (lowerStr user_question) "menu" ||
         containsSub (lowerStr user_question) "main") then
      let s := { s with context_data := { s.context_data with
        order_interrupted := false, awaiting_resume_decision := false,
        product_question_prompted := false } }
      let s := { s with interrupted_from := none, current_state := .MAIN_MENU }
      let s := addMsg s "assistant" "Okay, back to the main menu. How can I help you?"
      { s with last_user_message := "" }
    else
      let s := match o.rag user_question with
        | some answer =>
          addMsg s "assistant"
            (answer ++
             (if s.context_data.order_interrupted then
                "\n\nDo you have other questions? Or say **done** when you're ready for order."
              else
                "\n\nDo you have any other questions? Or type 'done' to return to the main menu."))
        | none =>
          addMsg s "assistant"
            ("I'm having trouble accessing our FAQ database right now. " ++
             "You can ask another question, or I can connect you with a human agent. " ++
             "Just say 'human' if you'd prefer that.")
      { s with last_user_message := "" }
  else { s with last_user_message := "" }

def route_from_product_questions (s : SessionState) : String :=
  if s.current_state = .MAIN_MENU then "main_menu"
  else if s.current_state ≠ .HAS_QUESTIONS_ABOUT_PRODUCT then "order_router"
  else "end"

/-- The resume flag map of `wants_human_node` (legacy names: only those
states reset an existing flag; `ORDER_ORGANIZATION` maps to the unused
legacy key `org_question_shown`, `ORDER_CONTACT` to the legacy
`contact_question_shown`). -/
def wantsHumanFlagReset (s : SessionState) (cs : ConversationState) : SessionState :=
  match cs with
  | .ORDER_CONTACT =>
    { s with context_data := { s.context_data with contact_question_shown := false } }
  | .ORDER_ORGANIZATION =>
    { s with context_data := { s.context_data with org_question_shown := false } }
  | .ORDER_TYPE =>
    { s with context_data := { s.context_data with type_question_shown := false } }
  | .ORDER_BUDGET =>
    { s with context_data := { s.context_data with budget_question_shown := false } }
  | .ORDER_SERVICE =>
    { s with context_data := { s.context_data with service_question_shown := false } }
  | .ORDER_APPAREL =>
    { s with context_data := { s.context_data with apparel_question_shown := false } }
  | .ORDER_PRODUCT =>
    { s with context_data := { s.context_data with product_question_shown := false } }
  | .ORDER_LOGO =>
    { s with context_data := { s.context_data with logo_question_shown := false } }
  | .ORDER_DECORATION_LOCATION =>
    { s with context_data := { s.context_data with decoration_location_shown := false } }
  | .ORDER_DECORATION_COLORS =>
    { s with context_data := { s.context_data with decoration_colors_shown := false } }
  | .ORDER_QUANTITY =>
    { s with context_data := { s.context_data with qty_question_shown := false } }
  | .ORDER_SIZES =>
    { s with context_data := { s.context_data with sizes_question_shown := false } }
  | .ORDER_DELIVERY =>
    { s with context_data := { s.context_data with delivery_question_shown := false } }
  | _ => s

def wants_human_node (s : SessionState) : SessionState :=
  let contact_message := "Sure! You can reach a human agent for assistance:\n\n📞 Phone: 425.303.3381\n📧 Email: info@screenprintingnw.com\n🕐 Hours: Monday to Friday from 8 a.m. to 5 p.m."
  if !s.context_data.human_contact_shown then
    let combined :=
      if s.context_data.order_interrupted then
        contact_message ++ "\n\nWould you like to **continue your order** where you left off, or **end** the conversation?"
      else
        contact_message ++ "\n\nWould you like to **continue chatting**, or **end** the conversation?"
    let s := addMsg s "assistant" combined
    { s with context_data := { s.context_data with human_contact_shown := true },
             last_user_message := "" }
  else if s.last_user_message ≠ "" then
    let txt := lowerStr (stripStr s.last_user_message)
    if s.context_data.order_interrupted then
      if containsAny txt ["continue", "order", "resume", "yes", "left", "off"] then
        let resume_state := (s.interrupted_from).getD .ORDER_CONTACT
        let s := wantsHumanFlagReset s resume_state
        let s := { s with context_data := { s.context_data with order_interrupted := false } }
        { s with interrupted_from := none, current_state := resume_state,
                 last_user_message := "__RESUME__" }
      else if containsAny txt ["end", "bye", "goodbye", "done", "finish", "no"] then
        let s := { s with current_state := .END }
        let s := addMsg s "assistant"
          "Thank you for chatting with us! Feel free to come back anytime. Have a great day! 👋"
        { s with last_user_message := "" }
      else
        let s := addMsg s "assistant"
          "Please reply:\n• **Continue** to resume your order\n• **End** to finish our conversation"
        { s with last_user_message := "" }
    else
      if containsAny txt ["continue", "chat", "question", "order", "main", "yes"] then
        let s := { s with current_state := .MAIN_MENU,
                          context_data := { main_menu_prompted := true } }
        let s := addMsg s "assistant" "Great! I'm here to help. What would you like to do?"
        { s with last_user_message := "" }
      else if containsAny txt ["end", "bye", "goodbye", "done", "finish", "no"] then
        let s := { s with current_state := .END }
        let s := addMsg s "assistant"
          "Thank you for chatting with us! Feel free to come back anytime. Have a great day! 👋"
        { s with last_user_message := "" }
      else
        let s := addMsg s "assistant"
          "Please reply:\n• **Continue** to keep chatting\n• **End** to finish our conversation"
        { s with last_user_message := "" }
  else { s with last_user_message := "" }

def route_from_wants_human (s : SessionState) : String :=
  if s.current_state = .MAIN_MENU then "main_menu"
  else if s.current_state = .END then "end_conversation"
  else if s.current_state ≠ .WANTS_HUMAN then "order_router"
  else if s.context_data.human_contact_shown && s.last_user_message = "" then "end"
  else "wants_human"

def end_node (s : SessionState) : SessionState :=
  if s.context_data.human_contact_shown then { s with current_state := .END }
  else
    let s := addMsg s "assistant"
      "Thank you for your time. If you need further assistance, feel free to reach out anytime."
    { s with current_state := .END }

/-! ### Order-flow router (`order_flow.py`, `route_order_flow`) and the
dispatch graph (`main.py`)

`route_order_flow` mutates `current_state` while scanning, so it is
modelled as `SessionState → SessionState × String`.  The label `"end"` is
the pause signal (mapped to the graph's END).  `main.py` as committed
wires the (removed) monolithic `order_contact` node and does not register
the four split contact nodes that `route_order_flow` returns, so the
module fails on loading; the dispatcher below wires each step label that
`route_order_flow` can return to the step node of that name, which is the
wiring the router and `step_map` of `order_flow.py` are written against.
Equally, `route_from_wants_human` can return `"end"`, which `main.py`'s
conditional-edge map omits; the dispatcher maps it to the pause. -/

/-- The shared shape of each field check of `route_order_flow`'s linear
scan: set `current_state` to the step's state, then return the step when
its question is unshown or an answer is pending, else pause. -/
def routeStep (s : SessionState) (cs : ConversationState) (shown : Bool) (lbl : String) :
    SessionState × String :=
  let s := { s with current_state := cs }
  if shown && s.last_user_message ≠ "" then (s, lbl)
  else if !shown then (s, lbl)
  else (s, "end")

/-- The organization branch of the scan (two sub-question flags). -/
def routeOrg (s : SessionState) : SessionState × String :=
  let c := s.context_data
  let s := { s with current_state := .ORDER_ORGANIZATION }
  if c.org_type_shown && c.org_name_shown && s.last_user_message ≠ "" then
    (s, "order_organization")
  else if c.org_type_shown && !c.org_name_shown && s.last_user_message ≠ "" then
    (s, "order_organization")
  else if !c.org_type_shown then (s, "order_organization")
  else (s, "end")

/-- The sizes branch of the scan, including the dead `sizes_pending`
handling (no code ever stores that key). -/
def routeSizes (s : SessionState) : SessionState × String :=
  let c := s.context_data
  match c.sizes_pending with
  | some pending =>
    if s.last_user_message ≠ "" then
      if containsSub (lowerStr (stripStr s.last_user_message)) "use sizes total" then
        let s := { s with
          order := { s.order with
            sizes := pending.map (fun kv =>
              SizeQuantity.mk (String.mk (kv.1.toList.map (fun ch =>
                if isAsciiLower ch then Char.ofNat (ch.toNat - 32) else ch))) kv.2) },
          context_data := { s.context_data with sizes_pending := none,
                                                sizes_complete := true } }
        routeStep s .ORDER_SIZES c.sizes_question_shown "order_sizes"
      else ({ s with current_state := .ORDER_SIZES }, "order_sizes")
    else routeStep s .ORDER_SIZES c.sizes_question_shown "order_sizes"
  | none => routeStep s .ORDER_SIZES c.sizes_question_shown "order_sizes"

/-- The `step_map` used on resumption (`route_order_flow`, step 4). -/
def stepOfState : ConversationState → Option String
  | .ORDER_CONTACT_FIRST_NAME => some "order_contact_first_name"
  | .ORDER_CONTACT_LAST_NAME => some "order_contact_last_name"
  | .ORDER_CONTACT_EMAIL => some "order_contact_email"
  | .ORDER_CONTACT_PHONE => some "order_contact_phone"
  | .ORDER_ORGANIZATION => some "order_organization"
  | .ORDER_TYPE => some "order_type"
  | .ORDER_BUDGET => some "order_budget"
  | .ORDER_SERVICE => some "order_service"
  | .ORDER_APPAREL => some "order_apparel"
  | .ORDER_PRODUCT => some "order_product"
  | .ORDER_LOGO => some "order_logo"
  | .ORDER_DECORATION_LOCATION => some "order_decoration_location"
  | .ORDER_DECORATION_COLORS => some "order_decoration_colors"
  | .ORDER_QUANTITY => some "order_quantity"
  | .ORDER_SIZES => some "order_sizes"
  | .ORDER_DELIVERY => some "order_delivery"
  | _ => none

/-- The linear field scan of `route_order_flow`: the first incomplete
field decides the step. -/
def routeScan (s : SessionState) : SessionState × String :=
  let c := s.context_data
  if !c.contact_first_name_complete then
    routeStep s .ORDER_CONTACT_FIRST_NAME c.contact_first_name_shown
      "order_contact_first_name"
  else if !c.contact_last_name_complete then
    routeStep s .ORDER_CONTACT_LAST_NAME c.contact_last_name_shown
      "order_contact_last_name"
  else if !c.contact_email_complete then
    routeStep s .ORDER_CONTACT_EMAIL c.contact_email_shown "order_contact_email"
  else if !c.contact_phone_complete then
    routeStep s .ORDER_CONTACT_PHONE c.contact_phone_shown "order_contact_phone"
  else if !c.org_complete then routeOrg s
  else if !c.type_complete then
    routeStep s .ORDER_TYPE c.type_question_shown "order_type"
  else if !c.budget_complete then
    routeStep s .ORDER_BUDGET c.budget_question_shown "order_budget"
  else if !c.service_complete then
    routeStep s .ORDER_SERVICE c.service_question_shown "order_service"
  else if !c.apparel_complete then
    routeStep s .ORDER_APPAREL c.apparel_question_shown "order_apparel"
  else if !c.product_complete then
    routeStep s .ORDER_PRODUCT c.product_question_shown "order_product"
  else if !c.logo_complete then
    routeStep s .ORDER_LOGO c.logo_question_shown "order_logo"
  else if !c.decoration_location_complete then
    routeStep s .ORDER_DECORATION_LOCATION c.decoration_location_shown
      "order_decoration_location"
  else if !c.decoration_colors_complete then
    routeStep s .ORDER_DECORATION_COLORS c.decoration_colors_shown
      "order_decoration_colors"
  else if !c.qty_complete then
    routeStep s .ORDER_QUANTITY c.qty_question_shown "order_quantity"
  else if !c.sizes_complete then routeSizes s
  else if !c.delivery_complete then
    if c.awaiting_address then
      routeStep s .ORDER_DELIVERY_ADDRESS c.address_question_shown
        "order_delivery_address"
    else routeStep s .ORDER_DELIVERY c.delivery_question_shown "order_delivery"
  else if !c.order_complete then
    ({ s with current_state := .ORDER_SUMMARY }, "order_summary")
  else ({ s with current_state := .ORDER_SUMMARY }, "order_summary")

def route_order_flow (s : SessionState) : SessionState × String :=
  if s.context_data.order_interrupted &&
      s.current_state = .HAS_QUESTIONS_ABOUT_PRODUCT then (s, "end")
  else if s.context_data.order_interrupted && s.current_state = .WANTS_HUMAN then
    (s, "wants_human")
  else if s.context_data.order_interrupted && s.current_state = .END then
    (s, "end_conversation")
  else if s.context_data.just_resumed_from_interrupt then
    let s := { s with context_data :=
      { s.context_data with just_resumed_from_interrupt := false } }
    match stepOfState s.current_state with
    | some lbl => (s, lbl)
    | none => routeScan s
  else routeScan s

/-- `route_from_resume` from `main.py`. -/
def route_from_resume (s : SessionState) : String :=
  if s.current_state = .WELCOME then
    if s.last_user_message ≠ "" then "main_menu" else "welcome"
  else if s.current_state.isOrder then "order_router"
  else if s.current_state = .MAIN_MENU then "main_menu"
  else if s.current_state = .HAS_QUESTIONS_ABOUT_PRODUCT then "product_questions"
  else if s.current_state = .WANTS_HUMAN then "wants_human"
  else if s.current_state = .END then
    if s.last_user_message ≠ "" &&
        containsAny (lowerStr s.last_user_message)
          ["order", "quote", "restart", "start", "begin"] then
      if s.context_data.order_interrupted && (s.interrupted_from).isSome then "order_router"
      else "main_menu"
    else "end_conversation"
  else "main_menu"

/-- One hop of the compiled graph: run the node named by `label`, then
report the next label (`none` = the turn pauses / reaches END). -/
def stepHop (o : Oracles) (label : String) (s : SessionState) :
    SessionState × Option String :=
  if label = "resume" then (s, some (route_from_resume s))
  else if label = "welcome" then (welcome_node s, some "main_menu")
  else if label = "main_menu" then
    let s := main_menu_node o s
    let r := route_from_main_menu s
    (s, if r = "end" then none else if r = "order_contact" then some "order_router" else some r)
  else if label = "product_questions" then
    let s := product_questions_node o s
    let r := route_from_product_questions s
    (s, if r = "end" then none else some r)
  else if label = "wants_human" then
    let s := wants_human_node s
    let r := route_from_wants_human s
    (s, if r = "end" then none else some r)
  else if label = "end_conversation" then (end_node s, none)
  else if label = "order_router" then
    let (s, r) := route_order_flow s
    (s, if r = "end" then none else some r)
  else if label = "order_contact_first_name" then (order_contact_first_name_node s, some "order_router")
  else if label = "order_contact_last_name" then (order_contact_last_name_node s, some "order_router")
  else if label = "order_contact_email" then (order_contact_email_node s, some "order_router")
  else if label = "order_contact_phone" then (order_contact_phone_node s, some "order_router")
  else if label = "order_organization" then (order_organization_node s, some "order_router")
  else if label = "order_type" then (order_type_node s, some "order_router")
  else if label = "order_budget" then (order_budget_node s, some "order_router")
  else if label = "order_service" then (order_service_node s, some "order_router")
  else if label = "order_apparel" then (order_apparel_node s, some "order_router")
  else if label = "order_product" then (order_product_node s, some "order_router")
  else if label = "order_logo" then (order_logo_node o s, some "order_router")
  else if label = "order_decoration_location" then
    (order_decoration_location_node s, some "order_router")
  else if label = "order_decoration_colors" then
    (order_decoration_colors_node s, some "order_router")
  else if label = "order_quantity" then (order_quantity_node s, some "order_router")
  else if label = "order_sizes" then (order_sizes_node s, some "order_router")
  else if label = "order_delivery" then (order_delivery_node s, some "order_router")
  else if label = "order_delivery_address" then
    (order_delivery_address_node s, some "order_router")
  else if label = "order_summary" then (order_summary_node o s, none)
  else (s, none)

/-- The graph loop of one `ainvoke`, fuel-bounded by the recursion limit
of 50 configured in `main.py`. -/
def runLoop (o : Oracles) : Nat → String → SessionState → SessionState
  | 0, _, s => s
  | fuel + 1, label, s =>
    match stepHop o label s with
    | (s, none) => s
    | (s, some next) => runLoop o fuel next s

/-- One full chat turn on a session (the body of
`ScreenPrintingChatbot.chat` after loading the session): append the user
message when nonempty, then run the graph from the `resume` dispatcher. -/
def runTurn (o : Oracles) (s : SessionState) (msg : String) : SessionState :=
  let s := if msg ≠ "" then
      { (addMsg s "user" msg) with last_user_message := msg }
    else s
  runLoop o 50 "resume" s

/-- A fresh session as `SessionManager.get_session` creates it. -/
def initialSession (sid : String) : SessionState := { session_id := sid }

/-! ### Orchestrator (`main.py`, `ScreenPrintingChatbot.chat`) over the
session store (`services/session_manager.py`) -/

/-- The in-memory session store: `session_id` to session, last write
wins. -/
abbrev Store := List (String × SessionState)

def storeGet (st : Store) (sid : String) : Option SessionState :=
  (List.find? (fun kv => kv.1 = sid) st).map (·.2)

def storeSet (st : Store) (sid : String) (s : SessionState) : Store :=
  if (List.find? (fun kv : String × SessionState => kv.1 = sid) st).isSome then
    List.map (fun kv => if kv.1 = sid then (sid, s) else kv) st
  else st ++ [(sid, s)]

/-- The response dictionary of `ScreenPrintingChatbot.chat`: the success
shape carries state and intent labels, the error shape carries the raw
error string; absent keys are `none`. -/
structure ChatResponse where
  success : Bool
  response : String
  session_id : String
  current_state : Option String := none
  classified_intent : Option String := none
  conversation_ended : Option Bool := none
  error : Option String := none
deriving DecidableEq, Repr

def intentValue : Intent → String
  | .GREETING => "Greeting"
  | .HAS_QUESTIONS_ABOUT_PRODUCT => "Has Questions about Product"
  | .PLACE_ORDER => "Place order"
  | .END_CONVERSATION => "End conversation"
  | .WANTS_HUMAN => "Wants Human"
  | .NO_MATCH => "No match"
  | .YES => "Yes"
  | .NO => "No"

/-- The latest assistant message of a history, `"..."` when there is
none. -/
def latestAssistant (s : SessionState) : String :=
  match (s.conversation_history.filter (fun m => m.role = "assistant")).getLast? with
  | some m => m.content
  | none => "..."

/-- `ScreenPrintingChatbot.chat` from `main.py`.  `get_session` returns
the stored object itself, so the pre-processing mutations (appending the
user message to the history and setting `last_user_message`) are visible
in the store whether or not the turn then succeeds; the model writes the
store at each mutation point to reflect this aliasing.  `invoke` stands
for `self.app.ainvoke`: `Except.ok` is the final state of a completed
graph run, `Except.error` an exception escaping it (its message string is
`str(e)`); only a completed run reaches `update_session`. -/
def chat (invoke : SessionState → Except String SessionState)
    (st : Store) (sid : String) (user_message : String) : ChatResponse × Store :=
  let s := (storeGet st sid).getD (initialSession sid)
  let st := storeSet st sid s
  let s := if user_message ≠ "" then
      { (addMsg s "user" user_message) with last_user_message := user_message }
    else s
  let st := storeSet st sid s
  match invoke s with
  | .ok finalS =>
    let st := storeSet st sid finalS
    ({ success := true,
       response := latestAssistant finalS,
       session_id := sid,
       current_state := some finalS.current_state.value,
       classified_intent := (finalS.classified_intent).map intentValue,
       conversation_ended := some (finalS.current_state = .END) }, st)
  | .error e =>
    ({ success := false,
       response := "I'm experiencing technical difficulties. Please try again.",
       error := some e,
       session_id := sid }, st)

/-! ### Email sender (`flows/email_sender.py`) -/

/-- The environment configuration read by `send_email`; `none` models an
unset variable. -/
structure EmailEnv where
  host : Option String := none
  port : Option String := none
  user : Option String := none
  pwd : Option String := none
  from_addr : Option String := none
deriving DecidableEq, Repr

/-- A Python exception escaping to the caller. -/
inductive PyError
  | valueError (msg : String)
deriving DecidableEq, Repr

/-- Truthiness test `host and port and user and pwd and from_addr and
to_email` from `send_email` (an `int` is falsy exactly when it is `0`, a
string exactly when it is empty); `p` is the already-parsed port. -/
def emailConfigOk (env : EmailEnv) (to_email : String) (p : Int) : Bool :=
  let user := (env.user).getD ""
  ((env.host).getD "" ≠ "") && (p ≠ 0) && (user ≠ "") && ((env.pwd).getD "" ≠ "") &&
    (((env.from_addr).getD user) ≠ "") && (to_email ≠ "")

/-- `send_email` from `flows/email_sender.py`.  `smtpOk` is the outcome of
the SMTP session (connect, starttls, login, send): `true` when it runs to
completion, `false` when any of it raises (the `try`/`except` returns
`False` then).  The line `port = int(os.getenv("EMAIL_PORT", "587"))` runs
before the guarded block, so a non-numeric `EMAIL_PORT` raises
`ValueError` to the caller; the model returns `Except.error` there.
(Python's `os.getenv("EMAIL_FROM", user or "")` is `from_addr.getD user`
here because `user or ""` is `user` when truthy and both defaults are
falsy otherwise.  Message construction is exception-free for the str
inputs considered.) -/
def send_email (env : EmailEnv) (to_email _subject _body : String) (smtpOk : Bool) :
    Except PyError Bool :=
  match pyIntOfString ((env.port).getD "587") with
  | none => .error (.valueError "invalid literal for int() with base 10")
  | some p =>
    if emailConfigOk env to_email p then .ok smtpOk else .ok false

/-! ### Helper facts about the interrupt detector -/

/-- A message matches no interrupt keyword (or is empty/consumed). -/
def interruptFree (msg : String) : Bool :=
  msg = "" ||
    (let text := lowerStr (stripStr msg)
     !(containsAny text productQuestionKeywords) && !(_wants_human text) && !(_wants_end text))

theorem check_interrupt_of_interruptFree (s : SessionState)
    (h : interruptFree s.last_user_message = true) : _check_interrupt s = (s, none) := by
  unfold interruptFree at h
  unfold _check_interrupt
  rcases Bool.or_eq_true_iff.mp h with h1 | h1
  · simp only [decide_eq_true_eq] at h1
    simp [h1]
  · simp only [Bool.and_eq_true, Bool.not_eq_true'] at h1
    obtain ⟨⟨h2, h3⟩, h4⟩ := h1
    by_cases hm : s.last_user_message = ""
    · simp [hm]
    · simp [hm, h2, h3, h4]

/-- The state of the first incomplete order step in the router's scan
order, paired with that step's prompt-shown flag (the organization and
delivery steps expose the sub-question that the router would enter).
`none` means every field through delivery is complete, where the router
unconditionally returns the summary step. -/
def firstIncompleteState (c : ContextData) : Option (ConversationState × Bool) :=
  if !c.contact_first_name_complete then
    some (.ORDER_CONTACT_FIRST_NAME, c.contact_first_name_shown)
  else if !c.contact_last_name_complete then
    some (.ORDER_CONTACT_LAST_NAME, c.contact_last_name_shown)
  else if !c.contact_email_complete then some (.ORDER_CONTACT_EMAIL, c.contact_email_shown)
  else if !c.contact_phone_complete then some (.ORDER_CONTACT_PHONE, c.contact_phone_shown)
  else if !c.org_complete then some (.ORDER_ORGANIZATION, c.org_type_shown)
  else if !c.type_complete then some (.ORDER_TYPE, c.type_question_shown)
  else if !c.budget_complete then some (.ORDER_BUDGET, c.budget_question_shown)
  else if !c.service_complete then some (.ORDER_SERVICE, c.service_question_shown)
  else if !c.apparel_complete then some (.ORDER_APPAREL, c.apparel_question_shown)
  else if !c.product_complete then some (.ORDER_PRODUCT, c.product_question_shown)
  else if !c.logo_complete then some (.ORDER_LOGO, c.logo_question_shown)
  else if !c.decoration_location_complete then
    some (.ORDER_DECORATION_LOCATION, c.decoration_location_shown)
  else if !c.decoration_colors_complete then
    some (.ORDER_DECORATION_COLORS, c.decoration_colors_shown)
  else if !c.qty_complete then some (.ORDER_QUANTITY, c.qty_question_shown)
  else if !c.sizes_complete then some (.ORDER_SIZES, c.sizes_question_shown)
  else if !c.delivery_complete then
    if c.awaiting_address then some (.ORDER_DELIVERY_ADDRESS, c.address_question_shown)
    else some (.ORDER_DELIVERY, c.delivery_question_shown)
  else none

/-! ### Theorems for claims C1, C3, C9, C10 -/

/-- Completion flags for every step before the quantity question. -/
def ctxThroughDecorationColors : ContextData where
  contact_first_name_complete := true
  contact_last_name_complete := true
  contact_email_complete := true
  contact_phone_complete := true
  contact_complete := true
  org_complete := true
  type_complete := true
  budget_complete := true
  service_complete := true
  apparel_complete := true
  product_complete := true
  logo_complete := true
  decoration_location_complete := true
  decoration_colors_complete := true

/-- A session paused at the shown quantity question (screen printing),
with the reply `"20 and 30"` pending. -/
def qtyTwoIntsSession : SessionState where
  session_id := "s"
  current_state := .ORDER_QUANTITY
  last_user_message := "20 and 30"
  order := { service_type := some "Screen Printing" }
  context_data := { ctxThroughDecorationColors with qty_question_shown := true }

/-- Claim C1 (counterexample): at the quantity question, the message
`"20 and 30"` (two integer tokens) does not store the mean 25 — the node
matches only a lone integer or an exact yes, so it stores nothing and
re-prompts.  The stored quantity stays `none`, not `"25"`. -/
theorem C1_counterexample_two_integers_not_averaged :
    (order_quantity_node qtyTwoIntsSession).order.total_quantity = none ∧
    latestAssistant (order_quantity_node qtyTwoIntsSession)
      = "Please reply **yes** for exact sizes, or a number from 1 to 5 for the range." := by
  exact ⟨rfl, rfl⟩

/-- Claim C1 as amended: the quantity node extracts no integer runs and
computes no mean; a reply to the shown quantity question that is neither
an exact yes word nor a single integer leaves the quantity, the sizes and
the completion flag unchanged and emits a clarifying re-prompt. -/
theorem C1_quantity_non_integer_reply_reprompts (s : SessionState)
    (hfree : interruptFree s.last_user_message = true)
    (hmsg : s.last_user_message ≠ "")
    (hres : s.last_user_message ≠ "__RESUME__")
    (hshown : s.context_data.qty_question_shown = true)
    (hyes : (lowerStr (stripStr s.last_user_message) = "yes" ||
             lowerStr (stripStr s.last_user_message) = "y" ||
             lowerStr (stripStr s.last_user_message) = "yeah" ||
             lowerStr (stripStr s.last_user_message) = "yep" ||
             lowerStr (stripStr s.last_user_message) = "sure") = false)
    (hint : pyMatchIntLine (lowerStr (stripStr s.last_user_message)) = none) :
    (order_quantity_node s).order = s.order ∧
    (order_quantity_node s).context_data = s.context_data ∧
    (order_quantity_node s).conversation_history =
      s.conversation_history ++
        [⟨"assistant",
          "Please reply **yes** for exact sizes, or a number from 1 to " ++
            toString ((((rangeMapFor (lowerStr ((s.order.service_type).getD ""))).map
              (·.1)).foldl max 0)) ++ " for the range."⟩] := by
  simp only [order_quantity_node, check_interrupt_of_interruptFree s hfree, hres, hshown, hmsg,
    hyes, hint, Option.isSome_none, Bool.false_eq_true, if_false, ite_true, ite_false,
    Bool.true_and, Bool.not_true, ne_eq, not_false_iff, decide_True, decide_False,
    decide_eq_true_eq]
  simp [addMsg, hmsg]

/-- A shown step with no pending text pauses the router. -/
theorem routeStep_pause (s : SessionState) (cs : ConversationState) (lbl : String)
    (hmsg : s.last_user_message = "") :
    routeStep s cs true lbl = ({ s with current_state := cs }, "end") := by
  unfold routeStep
  simp [hmsg]

theorem routeOrg_pause (s : SessionState) (hmsg : s.last_user_message = "")
    (hsh : s.context_data.org_type_shown = true) :
    routeOrg s = ({ s with current_state := .ORDER_ORGANIZATION }, "end") := by
  unfold routeOrg
  simp [hmsg, hsh]

theorem routeSizes_pause (s : SessionState) (hmsg : s.last_user_message = "")
    (hsh : s.context_data.sizes_question_shown = true) :
    routeSizes s = ({ s with current_state := .ORDER_SIZES }, "end") := by
  unfold routeSizes
  cases h : s.context_data.sizes_pending <;> simp [h, hmsg, hsh, routeStep]

/-- When no interrupt or resume flag is pending, the router is its linear
scan. -/
theorem route_order_flow_eq_scan (s : SessionState)
    (hqb : (s.context_data.order_interrupted &&
      decide (s.current_state = ConversationState.HAS_QUESTIONS_ABOUT_PRODUCT)) = false)
    (hwb : (s.context_data.order_interrupted &&
      decide (s.current_state = ConversationState.WANTS_HUMAN)) = false)
    (heb : (s.context_data.order_interrupted &&
      decide (s.current_state = ConversationState.END)) = false)
    (hjr : s.context_data.just_resumed_from_interrupt = false) :
    route_order_flow s = routeScan s := by
  unfold route_order_flow
  simp only [hqb, hwb, heb, hjr, Bool.false_eq_true, if_false, ite_false]

/-- On a session with no pending text whose first incomplete step's prompt
has been shown, the scan pauses, rewriting only `current_state`. -/
theorem routeScan_pause (s : SessionState) (cs : ConversationState)
    (hmsg : s.last_user_message = "")
    (hfirst : firstIncompleteState s.context_data = some (cs, true)) :
    routeScan s = ({ s with current_state := cs }, "end") := by
  obtain ⟨sid, cst, msg, ci, hist, ordr, ifrom, ctx, ema⟩ := s
  simp only at hmsg hfirst ⊢
  subst hmsg
  obtain ⟨oi, jr, ir, isnap, icon, irea, cq, oq, f1s, f1c, f2s, f2c, f3s, f3c, f4s, f4c, cc,
    ots, ons, oc, tqs, tc, bqs, bc, svqs, svc, apqs, apc, pqs, pc, lqs, lc, au, uk, dls, dlc,
    lm, dcs, dcc, qqs, qc, esm, ess, urp, sst, scoll, szqs, szc, szp, dqs, dc, aa, adqs,
    sums, ocf, ocp, mmp, pqp, ard, hcs, poqs, lfi, lvl, lfn⟩ := ctx
  cases f1c
  case false =>
    obtain ⟨h, h'⟩ := Prod.mk.inj (Option.some.inj hfirst)
    subst h; subst h'; rfl
  cases f2c
  case false =>
    obtain ⟨h, h'⟩ := Prod.mk.inj (Option.some.inj hfirst)
    subst h; subst h'; rfl
  cases f3c
  case false =>
    obtain ⟨h, h'⟩ := Prod.mk.inj (Option.some.inj hfirst)
    subst h; subst h'; rfl
  cases f4c
  case false =>
    obtain ⟨h, h'⟩ := Prod.mk.inj (Option.some.inj hfirst)
    subst h; subst h'; rfl
  cases oc
  case false =>
    obtain ⟨h, h'⟩ := Prod.mk.inj (Option.some.inj hfirst)
    subst h; subst h'
    cases ons <;> rfl
  cases tc
  case false =>
    obtain ⟨h, h'⟩ := Prod.mk.inj (Option.some.inj hfirst)
    subst h; subst h'; rfl
  cases bc
  case false =>
    obtain ⟨h, h'⟩ := Prod.mk.inj (Option.some.inj hfirst)
    subst h; subst h'; rfl
  cases svc
  case false =>
    obtain ⟨h, h'⟩ := Prod.mk.inj (Option.some.inj hfirst)
    subst h; subst h'; rfl
  cases apc
  case false =>
    obtain ⟨h, h'⟩ := Prod.mk.inj (Option.some.inj hfirst)
    subst h; subst h'; rfl
  cases pc
  case false =>
    obtain ⟨h, h'⟩ := Prod.mk.inj (Option.some.inj hfirst)
    subst h; subst h'; rfl
  cases lc
  case false =>
    obtain ⟨h, h'⟩ := Prod.mk.inj (Option.some.inj hfirst)
    subst h; subst h'; rfl
  cases dlc
  case false =>
    obtain ⟨h, h'⟩ := Prod.mk.inj (Option.some.inj hfirst)
    subst h; subst h'; rfl
  cases dcc
  case false =>
    obtain ⟨h, h'⟩ := Prod.mk.inj (Option.some.inj hfirst)
    subst h; subst h'; rfl
  cases qc
  case false =>
    obtain ⟨h, h'⟩ := Prod.mk.inj (Option.some.inj hfirst)
    subst h; subst h'; rfl
  cases szc
  case false =>
    obtain ⟨h, h'⟩ := Prod.mk.inj (Option.some.inj hfirst)
    subst h; subst h'
    cases szp <;> rfl
  cases dc
  case false =>
    cases aa
    case false =>
      obtain ⟨h, h'⟩ := Prod.mk.inj (Option.some.inj hfirst)
      subst h; subst h'; rfl
    case true =>
      obtain ⟨h, h'⟩ := Prod.mk.inj (Option.some.inj hfirst)
      subst h; subst h'; rfl
  exact Option.noConfusion hfirst

/-- Witness for `C1_quantity_non_integer_reply_reprompts` at the
two-integer reply `"20 and 30"`. -/
theorem C1_quantity_non_integer_reply_reprompts_witness :
    (order_quantity_node qtyTwoIntsSession).order = qtyTwoIntsSession.order ∧
    (order_quantity_node qtyTwoIntsSession).context_data = qtyTwoIntsSession.context_data ∧
    (order_quantity_node qtyTwoIntsSession).conversation_history =
      qtyTwoIntsSession.conversation_history ++
        [⟨"assistant",
          "Please reply **yes** for exact sizes, or a number from 1 to " ++
            toString ((((rangeMapFor
              (lowerStr ((qtyTwoIntsSession.order.service_type).getD ""))).map
              (·.1)).foldl max 0)) ++ " for the range."⟩] :=
  C1_quantity_non_integer_reply_reprompts qtyTwoIntsSession (by decide) (by decide)
    (by decide) rfl (by decide) (by decide)

/-- Completion flags of every field before the order-type question, with
that question shown. -/
def ctxPausedAtType : ContextData where
  contact_first_name_complete := true
  contact_last_name_complete := true
  contact_email_complete := true
  contact_phone_complete := true
  contact_complete := true
  org_complete := true
  type_question_shown := true

/-- A session paused at the shown order-type question with every earlier
field complete and no pending text. -/
def pausedAtTypeSession : SessionState where
  session_id := "s"
  current_state := .ORDER_TYPE
  context_data := ctxPausedAtType

/-- Claim C3 (counterexample): a session inside the order flow with no
pending text, whose first-name step has not been prompted yet, makes the
router return the first-name step (not the pause signal) and rewrite
`current_state` — so the router is not a mutation-free pause on every
no-pending-text session. -/
theorem C3_counterexample_router_mutates :
    (route_order_flow
      { session_id := "s", current_state := .ORDER_ORGANIZATION }).2 ≠ "end" ∧
    (route_order_flow
      { session_id := "s", current_state := .ORDER_ORGANIZATION }).1.current_state ≠
      ConversationState.ORDER_ORGANIZATION := by
  exact ⟨by decide, by decide⟩

/-- Claim C3 as amended: on a session in the order flow with no pending
text and no just-resumed flag, whose first incomplete step's prompt has
already been shown (and with some field through delivery still
incomplete), the router returns the pause signal and mutates nothing
except rewriting `current_state` to that first incomplete step's state. -/
theorem C3_router_pause_rewrites_only_current_state (s : SessionState)
    (cs : ConversationState)
    (hmsg : s.last_user_message = "")
    (hord : s.current_state.isOrder = true)
    (hjr : s.context_data.just_resumed_from_interrupt = false)
    (hfirst : firstIncompleteState s.context_data = some (cs, true)) :
    route_order_flow s = ({ s with current_state := cs }, "end") := by
  have hq : ¬ s.current_state = ConversationState.HAS_QUESTIONS_ABOUT_PRODUCT := by
    intro h; rw [h] at hord; exact absurd hord (by decide)
  have hw : ¬ s.current_state = ConversationState.WANTS_HUMAN := by
    intro h; rw [h] at hord; exact absurd hord (by decide)
  have he : ¬ s.current_state = ConversationState.END := by
    intro h; rw [h] at hord; exact absurd hord (by decide)
  have hqb : (s.context_data.order_interrupted &&
      decide (s.current_state = ConversationState.HAS_QUESTIONS_ABOUT_PRODUCT)) = false := by
    simp [hq]
  have hwb : (s.context_data.order_interrupted &&
      decide (s.current_state = ConversationState.WANTS_HUMAN)) = false := by simp [hw]
  have heb : (s.context_data.order_interrupted &&
      decide (s.current_state = ConversationState.END)) = false := by simp [he]
  rw [route_order_flow_eq_scan s hqb hwb heb hjr]
  exact routeScan_pause s cs hmsg hfirst

/-- Witness for `C3_router_pause_rewrites_only_current_state` at a session
paused on the shown order-type question. -/
theorem C3_router_pause_rewrites_only_current_state_witness :
    route_order_flow pausedAtTypeSession =
      ({ pausedAtTypeSession with current_state := ConversationState.ORDER_TYPE }, "end") :=
  C3_router_pause_rewrites_only_current_state pausedAtTypeSession
    ConversationState.ORDER_TYPE rfl (by decide) rfl (by decide)

/-- Claim C9 (counterexample): when the graph run raises, the turn
response is the generic failure shape with the raw error attached, but
the persisted session is NOT what it was before the turn: the user
message was already appended to the stored object's history (the store
aliases the live session), so the turn is not atomic on error. -/
theorem C9_counterexample_error_turn_not_atomic :
    (chat (fun _ => .error "boom") [("s1", initialSession "s1")] "s1" "hi").1 =
      { success := false,
        response := "I'm experiencing technical difficulties. Please try again.",
        error := some "boom", session_id := "s1" } ∧
    (chat (fun _ => .error "boom") [("s1", initialSession "s1")] "s1" "hi").2 ≠
      [("s1", initialSession "s1")] := by
  exact ⟨rfl, by decide⟩

/-- Claim C9 as amended: on an unexpected error the turn handler returns
`success = false` with the generic technical-difficulties message and the
raw error string, and performs no `update_session` write — but the
persisted session is the pre-turn session with the user's message already
appended and `last_user_message` already set, because `get_session`
returns the stored object itself and those mutations precede the guarded
block. -/
theorem C9_error_turn_persists_appended_message
    (invoke : SessionState → Except String SessionState)
    (st : Store) (sid msg e : String)
    (hmsg : msg ≠ "")
    (herr : invoke { (addMsg ((storeGet st sid).getD (initialSession sid)) "user" msg) with
                     last_user_message := msg } = .error e) :
    chat invoke st sid msg =
      ({ success := false,
         response := "I'm experiencing technical difficulties. Please try again.",
         error := some e, session_id := sid },
       storeSet (storeSet st sid ((storeGet st sid).getD (initialSession sid))) sid
         { (addMsg ((storeGet st sid).getD (initialSession sid)) "user" msg) with
           last_user_message := msg }) := by
  simp only [chat]
  rw [if_pos hmsg, herr]

/-- Witness for `C9_error_turn_persists_appended_message` on a concrete
store, message and failing invoke. -/
theorem C9_error_turn_persists_appended_message_witness :
    chat (fun _ => .error "boom") [] "s1" "hi" =
      ({ success := false,
         response := "I'm experiencing technical difficulties. Please try again.",
         error := some "boom", session_id := "s1" },
       storeSet (storeSet [] "s1" ((storeGet [] "s1").getD (initialSession "s1"))) "s1"
         { (addMsg ((storeGet [] "s1").getD (initialSession "s1")) "user" "hi") with
           last_user_message := "hi" }) :=
  C9_error_turn_persists_appended_message (fun _ => .error "boom") [] "s1" "hi" "boom"
    (by decide) rfl

/-- Claim C10 (counterexample): the end keywords do not always end the
conversation — a message containing both an end keyword and a
product-question keyword (here `"cancel my question"`) is diverted to the
product-questions flow, because that check runs first. -/
theorem C10_counterexample_product_keywords_win :
    _wants_end (lowerStr (stripStr "cancel my question")) = true ∧
    (_check_interrupt
      { session_id := "s", current_state := .ORDER_TYPE,
        last_user_message := "cancel my question" }).2 =
      some .HAS_QUESTIONS_ABOUT_PRODUCT ∧
    (_check_interrupt
      { session_id := "s", current_state := .ORDER_TYPE,
        last_user_message := "cancel my question" }).1.current_state ≠
      ConversationState.END := by
  exact ⟨by decide, rfl, by decide⟩

/-- Claim C10 as amended: during an order step, a nonempty message whose
lowercased text contains one of the end substrings is diverted to END by
the interrupt check, provided it contains no product-question keyword and
no human-escalation keyword (those checks take precedence); the match is
by substring, so words like "recommend" or "weekend" also end the
conversation (see the witness). -/
theorem C10_end_keywords_divert_to_end (s : SessionState)
    (hmsg : s.last_user_message ≠ "")
    (hprod : containsAny (lowerStr (stripStr s.last_user_message)) productQuestionKeywords = false)
    (hhum : _wants_human (lowerStr (stripStr s.last_user_message)) = false)
    (hend : _wants_end (lowerStr (stripStr s.last_user_message)) = true) :
    (_check_interrupt s).2 = some .END ∧
    (_check_interrupt s).1.current_state = .END ∧
    (_check_interrupt s).1.interrupted_from = some s.current_state ∧
    (_check_interrupt s).1.context_data.order_interrupted = true := by
  unfold _check_interrupt
  simp [hmsg, hprod, hhum, hend, addMsg]

/-- Witness for `C10_end_keywords_divert_to_end`: the ordinary answer
`"recommend"` (which contains "end" as a substring and no higher-priority
keyword) ends the conversation from an order step. -/
theorem C10_end_keywords_divert_to_end_witness :
    ((_check_interrupt
      { session_id := "s", current_state := .ORDER_BUDGET,
        last_user_message := "recommend" }).2 = some ConversationState.END ∧
     (_check_interrupt
      { session_id := "s", current_state := .ORDER_BUDGET,
        last_user_message := "recommend" }).1.current_state = ConversationState.END ∧
     (_check_interrupt
      { session_id := "s", current_state := .ORDER_BUDGET,
        last_user_message := "recommend" }).1.interrupted_from =
        some ConversationState.ORDER_BUDGET ∧
     (_check_interrupt
      { session_id := "s", current_state := .ORDER_BUDGET,
        last_user_message := "recommend" }).1.context_data.order_interrupted = true) :=
  C10_end_keywords_divert_to_end _ (by decide) (by decide) (by decide) (by decide)

/-! ### Claim C4: the open-question invariant

An order question is "open" when its prompt-shown flag is true while its
completion flag is false.  `openPairs` counts the open questions of a
session over the (shown, complete) flag pairs that the step nodes
maintain; the organization sub-questions share `org_complete`, the
delivery-option and delivery-address questions share `delivery_complete`,
and the summary pairs with `order_complete`. -/

def pairOpen (shown complete : Bool) : Nat := if shown && !complete then 1 else 0

def openPairs (s : SessionState) : Nat :=
  let c := s.context_data
  pairOpen c.contact_first_name_shown c.contact_first_name_complete +
  pairOpen c.contact_last_name_shown c.contact_last_name_complete +
  pairOpen c.contact_email_shown c.contact_email_complete +
  pairOpen c.contact_phone_shown c.contact_phone_complete +
  pairOpen c.org_type_shown c.org_complete +
  pairOpen c.org_name_shown c.org_complete +
  pairOpen c.type_question_shown c.type_complete +
  pairOpen c.budget_question_shown c.budget_complete +
  pairOpen c.service_question_shown c.service_complete +
  pairOpen c.apparel_question_shown c.apparel_complete +
  pairOpen c.logo_question_shown c.logo_complete +
  pairOpen c.product_question_shown c.product_complete +
  pairOpen c.decoration_location_shown c.decoration_location_complete +
  pairOpen c.decoration_colors_shown c.decoration_colors_complete +
  pairOpen c.qty_question_shown c.qty_complete +
  pairOpen c.sizes_question_shown c.sizes_complete +
  pairOpen c.delivery_question_shown c.delivery_complete +
  pairOpen c.address_question_shown c.delivery_complete +
  pairOpen c.summary_shown c.order_complete

/-- The inductive flag invariant of the order flow: completion flags are
prefix-closed along the router's scan order, every prompt-shown flag
implies the preceding field's completion, the address sub-flags are tied
to the delivery step, and the dead flags (`just_resumed_from_interrupt`,
`sizes_pending`) keep their initial values. -/
def Phi (c : ContextData) : Prop :=
  c.just_resumed_from_interrupt = false ∧
  c.sizes_pending = none ∧
  (c.contact_last_name_complete = true → c.contact_first_name_complete = true) ∧
  (c.contact_email_complete = true → c.contact_last_name_complete = true) ∧
  (c.contact_phone_complete = true → c.contact_email_complete = true) ∧
  (c.org_complete = true → c.contact_phone_complete = true) ∧
  (c.type_complete = true → c.org_complete = true) ∧
  (c.budget_complete = true → c.type_complete = true) ∧
  (c.service_complete = true → c.budget_complete = true) ∧
  (c.apparel_complete = true → c.service_complete = true) ∧
  (c.product_complete = true → c.apparel_complete = true) ∧
  (c.logo_complete = true → c.product_complete = true) ∧
  (c.decoration_location_complete = true → c.logo_complete = true) ∧
  (c.decoration_colors_complete = true → c.decoration_location_complete = true) ∧
  (c.qty_complete = true → c.decoration_colors_complete = true) ∧
  (c.sizes_complete = true → c.qty_complete = true) ∧
  (c.delivery_complete = true → c.sizes_complete = true) ∧
  (c.order_complete = true → c.delivery_complete = true) ∧
  (c.contact_last_name_shown = true → c.contact_first_name_complete = true) ∧
  (c.contact_email_shown = true → c.contact_last_name_complete = true) ∧
  (c.contact_phone_shown = true → c.contact_email_complete = true) ∧
  (c.org_type_shown = true → c.contact_phone_complete = true) ∧
  (c.org_name_shown = true → c.contact_phone_complete = true) ∧
  (c.type_question_shown = true → c.org_complete = true) ∧
  (c.budget_question_shown = true → c.type_complete = true) ∧
  (c.service_question_shown = true → c.budget_complete = true) ∧
  (c.apparel_question_shown = true → c.service_complete = true) ∧
  (c.product_question_shown = true → c.apparel_complete = true) ∧
  (c.logo_question_shown = true → c.product_complete = true) ∧
  (c.decoration_location_shown = true → c.logo_complete = true) ∧
  (c.decoration_colors_shown = true → c.decoration_location_complete = true) ∧
  (c.qty_question_shown = true → c.decoration_colors_complete = true) ∧
  (c.sizes_question_shown = true → c.qty_complete = true) ∧
  (c.delivery_question_shown = true → c.sizes_complete = true) ∧
  (c.address_question_shown = true → c.sizes_complete = true) ∧
  (c.address_question_shown = true → (c.awaiting_address || c.delivery_complete) = true) ∧
  (c.awaiting_address = true → c.delivery_question_shown = true) ∧
  (c.summary_shown = true → c.delivery_complete = true)

/-! ### Theorems for claims C2 and C5 (scenario runs) -/

/-- A fixed oracle assignment for concrete runs: the menu classifier maps
order-keyword texts to PLACE_ORDER, the summary classifier returns
NO_MATCH (the confirm branch also matches on the text itself), RAG and
the change parser fail, and every SMTP attempt succeeds. -/
def oracleFixed : Oracles where
  classifyIntent := fun _ => .NO_MATCH
  classifyMenu := fun t => if containsSub (lowerStr t) "order" then some .PLACE_ORDER
    else some .NO_MATCH
  rag := fun _ => none
  llmChanges := fun _ => none
  smtp := fun _ => true
  uuidHex := "0123456789abcdef"

/-- Every order field complete, with the summary already shown. -/
def ctxAllComplete : ContextData where
  contact_first_name_complete := true
  contact_first_name_shown := true
  contact_last_name_complete := true
  contact_last_name_shown := true
  contact_email_complete := true
  contact_email_shown := true
  contact_phone_complete := true
  contact_phone_shown := true
  contact_complete := true
  org_type_shown := true
  org_complete := true
  type_question_shown := true
  type_complete := true
  budget_question_shown := true
  budget_complete := true
  service_question_shown := true
  service_complete := true
  apparel_question_shown := true
  apparel_complete := true
  product_question_shown := true
  product_complete := true
  logo_question_shown := true
  logo_complete := true
  decoration_location_shown := true
  decoration_location_complete := true
  decoration_colors_shown := true
  decoration_colors_complete := true
  qty_question_shown := true
  qty_complete := true
  sizes_complete := true
  delivery_question_shown := true
  delivery_complete := true
  summary_shown := true

/-- An order with a customer email present. -/
def orderWithEmail : OrderDetails where
  contact := { first_name := some "John", last_name := some "Doe",
               email := some "john@example.com", phone := some "+1234567890" }
  organization := { is_business := some false }
  order_type := some "Sports team"
  budget_range := some "Value"
  service_type := some "Screen Printing"
  apparel_category := some "t-shirt"
  product_name := some "t-shirt"
  decoration_location := some "Full Front"
  decoration_colors := some 2
  total_quantity := some "24-50"
  delivery_option := some "Pick Up"

/-- A session showing the order summary and awaiting the confirmation
reply (customer email present). -/
def confirmReadySession : SessionState where
  session_id := "s"
  current_state := .ORDER_SUMMARY
  order := orderWithEmail
  context_data := ctxAllComplete

/-- Claim C2 (counterexample): with a customer email present, the first
"confirm" turn attempts the customer send once — and a second "confirm"
turn routes back into the summary node and attempts the send AGAIN (the
`quote_email_sent` idempotency flag of the claim does not exist in the
code), so the send is not exactly-once. -/
theorem C2_counterexample_second_confirm_resends :
    (runTurn oracleFixed confirmReadySession "confirm").email_send_attempts = 1 ∧
    (runTurn oracleFixed (runTurn oracleFixed confirmReadySession "confirm")
      "confirm").email_send_attempts = 2 := by
  exact ⟨rfl, rfl⟩

/-- Claim C2 as amended: no idempotency flag guards the customer send —
every "confirm" reply processed by the summary node while a customer
email is present performs a fresh `send_email` attempt (incrementing the
attempt count by one), whatever the outcome of or history of earlier
attempts; since the post-confirmation router returns to the summary node,
a second "confirm" after a successful send re-sends the summary. -/
theorem C2_every_confirm_attempts_send (o : Oracles) (s : SessionState)
    (hfree : interruptFree s.last_user_message = true)
    (hres : s.last_user_message ≠ "__RESUME__")
    (hmsg : s.last_user_message ≠ "")
    (hshown : s.context_data.summary_shown = true)
    (hconf : containsSub (lowerStr (stripStr s.last_user_message)) "confirm" = true)
    (hemail : stripStr ((s.order.contact.email).getD "") ≠ "") :
    (order_summary_node o s).email_send_attempts = s.email_send_attempts + 1 ∧
    (order_summary_node o s).context_data.order_confirmed = true ∧
    (order_summary_node o s).current_state = .ORDER_POST_CONFIRMATION := by
  unfold order_summary_node
  rw [check_interrupt_of_interruptFree s hfree]
  simp only [Option.isSome_none, Bool.false_eq_true, if_false, ite_false, hres, hshown,
    hmsg, hconf, Bool.not_true, Bool.or_true, Bool.true_or, if_true, ite_true,
    Bool.or_false, Bool.false_or]
  unfold _send_summary_to_customer
  simp [hemail, addMsg, hres, hmsg]

/-- Witness for `C2_every_confirm_attempts_send`: the confirm reply on the
summary-ready session attempts exactly one more send. -/
theorem C2_every_confirm_attempts_send_witness :
    (order_summary_node oracleFixed
      { confirmReadySession with last_user_message := "confirm" }).email_send_attempts =
      { confirmReadySession with last_user_message := "confirm" }.email_send_attempts + 1 ∧
    (order_summary_node oracleFixed
      { confirmReadySession with
        last_user_message := "confirm" }).context_data.order_confirmed = true ∧
    (order_summary_node oracleFixed
      { confirmReadySession with last_user_message := "confirm" }).current_state =
      ConversationState.ORDER_POST_CONFIRMATION :=
  C2_every_confirm_attempts_send oracleFixed
    { confirmReadySession with last_user_message := "confirm" }
    (by decide) (by decide) (by decide) rfl (by decide) (by decide)

/-- The first-name prompt of `order_contact_first_name_node`. -/
def firstNamePrompt : String :=
  "Great — let's start with your quote request. What's your first name?"

/-- The five chat turns of the C5 scenario: welcome, order entry (the
first-name prompt is shown), the pricing question (interrupt), "done"
(exit the question loop), "continue order" (resume). -/
def c5_t0 : SessionState := runTurn oracleFixed (initialSession "s") ""

def c5_t1 : SessionState := runTurn oracleFixed c5_t0 "I want to place an order"

def c5_t2 : SessionState := runTurn oracleFixed c5_t1 "I have a question about pricing"

def c5_t3 : SessionState := runTurn oracleFixed c5_t2 "done"

def c5_t4 : SessionState := runTurn oracleFixed c5_t3 "continue order"

/-- Claim C5: from the first-contact step, "I have a question about
pricing" diverts to the product-questions flow with `interrupted_from`
recording the first-name step; "done" then "continue order" returns to
that step with its prompt-shown flag reset, so the first-name prompt is
re-issued (it occurs twice in the history) rather than the step being
skipped (no first name is stored, the step is not complete). -/
theorem C5_interrupt_resume_returns_to_first_name :
    c5_t1.current_state = .ORDER_CONTACT_FIRST_NAME ∧
    c5_t2.current_state = .HAS_QUESTIONS_ABOUT_PRODUCT ∧
    c5_t2.interrupted_from = some .ORDER_CONTACT_FIRST_NAME ∧
    c5_t4.current_state = .ORDER_CONTACT_FIRST_NAME ∧
    c5_t4.context_data.contact_first_name_shown = true ∧
    c5_t4.context_data.contact_first_name_complete = false ∧
    c5_t4.order.contact.first_name = none ∧
    latestAssistant c5_t4 = firstNamePrompt ∧
    (c5_t4.conversation_history.filter (fun m => m.content = firstNamePrompt)).length = 2 := by
  refine ⟨rfl, rfl, rfl, rfl, rfl, rfl, rfl, rfl, rfl⟩

/-! ### Theorems for claims C6, C7, C8 -/

/-- Claim C6: `parse_sizes` applied to the exact input
`"S:10, M:15, L:5, XL:2"` returns exactly the mapping
`{s:10, m:15, l:5, xl:2}` (in insertion order), and the quantities sum
to 32. -/
theorem C6_parse_sizes_roundtrip :
    parse_sizes "S:10, M:15, L:5, XL:2" = .ok [("s", 10), ("m", 15), ("l", 5), ("xl", 2)] ∧
    [("s", 10), ("m", 15), ("l", 5), ("xl", 2)].foldl (fun n kv => n + kv.2) 0 = 32 := by
  constructor
  · rfl
  · rfl

/-- Claim C7 (code bug): the third `findall` loop of `parse_sizes` unpacks
three-group tuples into two variables, so the surface forms `"QTY LABEL"`
and `"QTY x LABEL"` raise `ValueError` instead of being interchangeable
with `"LABEL:QTY"`; shown here at quantity 10 and alias label `s`, where
the colon form alone yields `{s: 10}`. -/
theorem C7_parse_sizes_crash_on_qty_label_forms :
    parse_sizes "10 s" = .error "ValueError: too many values to unpack (expected 2)" ∧
    parse_sizes "10 x s" = .error "ValueError: too many values to unpack (expected 2)" ∧
    parse_sizes "s:10" = .ok [("s", 10)] := by
  refine ⟨rfl, rfl, rfl⟩

/-- Claim C8 (counterexample): with the environment variable `EMAIL_PORT`
set to the non-numeric string `"abc"`, `send_email` raises `ValueError` to
its caller (the `int()` call runs before the guarded block), so it is not
exception-free for every environment configuration. -/
theorem C8_counterexample_bad_port_raises :
    send_email
      { host := some "smtp.gmail.com", port := some "abc",
        user := some "u@example.com", pwd := some "secret",
        from_addr := some "u@example.com" }
      "to@example.com" "subject" "body" true
      = .error (.valueError "invalid literal for int() with base 10") := rfl

/-- Claim C8 as amended: provided `EMAIL_PORT` is unset or parses as an
integer, `send_email` never raises: it returns `Except.ok` of a boolean
that is `true` exactly when the configuration and recipient are all
present (truthy) and the SMTP delivery succeeded. -/
theorem C8_send_email_boolean_when_port_parses
    (env : EmailEnv) (to_email subject body : String) (smtpOk : Bool) (p : Int)
    (h : pyIntOfString ((env.port).getD "587") = some p) :
    send_email env to_email subject body smtpOk = .ok (emailConfigOk env to_email p && smtpOk) := by
  unfold send_email
  rw [h]
  by_cases hc : emailConfigOk env to_email p = true
  · simp [hc]
  · simp [Bool.eq_false_iff.mpr hc]

/-- Witness for `C8_send_email_boolean_when_port_parses` at a concrete
configuration with `EMAIL_PORT = "2525"`. -/
theorem C8_send_email_boolean_when_port_parses_witness :
    send_email
      { host := some "smtp.gmail.com", port := some "2525",
        user := some "u@example.com", pwd := some "secret", from_addr := none }
      "to@example.com" "s" "b" true
      = .ok (emailConfigOk
          { host := some "smtp.gmail.com", port := some "2525",
            user := some "u@example.com", pwd := some "secret", from_addr := none }
          "to@example.com" 2525 && true) :=
  C8_send_email_boolean_when_port_parses _ _ _ _ _ 2525 (by decide)

/-! ### Claim C4: open questions at a router pause -/

/-- An order state is none of the three interrupt-diversion states the
router checks first. -/
theorem isOrder_ne_special (cs : ConversationState) (h : cs.isOrder = true) :
    decide (cs = ConversationState.HAS_QUESTIONS_ABOUT_PRODUCT) = false ∧
    decide (cs = ConversationState.WANTS_HUMAN) = false ∧
    decide (cs = ConversationState.END) = false := by
  revert h
  cases cs <;> decide

/-- The sessions reachable by chat turns from a fresh session. -/
inductive Reachable (o : Oracles) : SessionState → Prop where
  | init (sid : String) : Reachable o (initialSession sid)
  | step (msg : String) {s : SessionState} : Reachable o s → Reachable o (runTurn o s msg)

theorem reachable_foldl (o : Oracles) (msgs : List String) :
    ∀ s : SessionState, Reachable o s → Reachable o (List.foldl (runTurn o) s msgs) := by
  induction msgs with
  | nil => exact fun s hs => hs
  | cons m ms ih => exact fun s hs => ih (runTurn o s m) (Reachable.step m hs)

/-- A complete order conversation up to the delivery step: contact data,
a personal order, type/budget/service/apparel choices, no color
preference, no logo, placement and colors, quantity range 1, and finally
the answer `delivery` to the Delivery-or-Pickup question. -/
def c4Msgs : List String :=
  ["", "I want to place an order", "John", "Doe", "john@example.com", "+12345678901",
   "personal", "1", "1", "1", "1", "no preference", "skip", "1", "2", "1", "delivery"]

def c4Pause : SessionState := c4Msgs.foldl (runTurn oracleFixed) (initialSession "c4")

/-- The context-data flags of `c4Pause`, as a literal. -/
def c4Ctx : ContextData :=
  { contact_first_name_shown := true, contact_first_name_complete := true,
    contact_last_name_shown := true, contact_last_name_complete := true,
    contact_email_shown := true, contact_email_complete := true,
    contact_phone_shown := true, contact_phone_complete := true,
    contact_complete := true,
    org_type_shown := true, org_name_shown := false, org_complete := true,
    type_question_shown := true, type_complete := true,
    budget_question_shown := true, budget_complete := true,
    service_question_shown := true, service_complete := true,
    apparel_question_shown := true, apparel_complete := true,
    product_question_shown := true, product_complete := true,
    logo_question_shown := true, logo_complete := true,
    upload_key := some "0123456789abcdef",
    decoration_location_shown := true, decoration_location_complete := true,
    loc_map := [("1", "Full Front"), ("2", "Full Back"), ("3", "Left Chest"),
                ("4", "Right Chest"), ("5", "Left Sleeve"), ("6", "Right Sleeve"),
                ("7", "Small Upper Back"), ("8", "Front Center")],
    decoration_colors_shown := true, decoration_colors_complete := true,
    qty_question_shown := true, qty_complete := true,
    used_range_path := true,
    sizes_complete := true,
    delivery_question_shown := true, delivery_complete := false,
    awaiting_address := true, address_question_shown := true,
    main_menu_prompted := true }

set_option maxRecDepth 8000 in
theorem c4Pause_ctx : c4Pause.context_data = c4Ctx := rfl

theorem c4Pause_phi : Phi c4Pause.context_data := by
  rw [c4Pause_ctx]
  simp [Phi, c4Ctx]

set_option maxRecDepth 8000 in
/-- Claim C4 (counterexample): a session reached by actual chat turns and
paused by the router (label `"end"`) at the delivery-address question has
TWO open question pairs, not exactly one: `delivery_question_shown` and
`address_question_shown` are both set while `delivery_complete` is still
false.  The state also satisfies the flag discipline `Phi`, so the bound
of the amended claim is attained. -/
theorem C4_counterexample_delivery_address_two_open :
    Reachable oracleFixed c4Pause ∧
    c4Pause.current_state = ConversationState.ORDER_DELIVERY_ADDRESS ∧
    (route_order_flow c4Pause).2 = "end" ∧
    openPairs c4Pause = 2 ∧
    Phi c4Pause.context_data :=
  ⟨reachable_foldl oracleFixed c4Msgs (initialSession "c4") (Reachable.init "c4"),
   rfl, rfl, rfl, c4Pause_phi⟩

set_option maxHeartbeats 1600000 in
/-- Claim C4 as amended: on an order-flow session whose flags satisfy the
flow's monotone flag discipline `Phi` (completion flags prefix-closed in
the router's scan order, each prompt-shown flag implying the previous
field's completion, the address sub-flags tied to the delivery step, and
the dead resume/pending flags at their initial values), a router pause
(label `"end"`) leaves exactly ONE open question pair - the first
incomplete step's - except in the organization-name and delivery-address
sub-phases, where the sub-question's pair is open alongside the phase's
first pair and the count is exactly two. -/
theorem C4_router_pause_open_questions (s : SessionState)
    (h : Phi s.context_data)
    (hord : s.current_state.isOrder = true)
    (hpause : (route_order_flow s).2 = "end") :
    openPairs s =
      (if (!s.context_data.org_complete && s.context_data.org_name_shown)
          || (!s.context_data.delivery_complete && s.context_data.awaiting_address)
        then 2 else 1) := by
  have hns := isOrder_ne_special s.current_state hord
  rw [route_order_flow_eq_scan s (by simp [hns.1]) (by simp [hns.2.1]) (by simp [hns.2.2])
    h.1] at hpause
  clear hord hns
  revert hpause
  obtain ⟨sid, cst, msg, ci, hist, ordr, ifrom, ctx, ema⟩ := s
  obtain ⟨oi, jr, ir, isnap, icon, irea, cq, oq, f1s, f1c, f2s, f2c, f3s, f3c, f4s, f4c, cc,
    ots, ons, oc, tqs, tc, bqs, bc, svqs, svc, apqs, apc, pqs, pc, lqs, lc, au, uk, dls, dlc,
    lm, dcs, dcc, qqs, qc, esm, ess, urp, sst, scoll, szqs, szc, szp, dqs, dc, aa, adqs,
    sums, ocf, ocp, mmp, pqp, ard, hcs, poqs, lfi, lvl, lfn⟩ := ctx
  simp only [Phi] at h
  obtain ⟨hjr, hsp, p1, p2, p3, p4, p5, p6, p7, p8, p9, p10, p11, p12, p13, p14, p15, p16,
    q2, q3, q4, q5a, q5b, q6, q7, q8, q9, q10, q11, q12, q13, q14, q15, q16,
    q17a, q17b, q17c, q18⟩ := h
  subst hjr hsp
  cases f1c with
  | false =>
    cases f1s with
    | false => exact fun hp => absurd hp (of_decide_eq_false rfl)
    | true =>
      intro hp
      clear hp
      simp_all [openPairs, pairOpen]
  | true =>
    cases f2c with
    | false =>
      cases f2s with
      | false => exact fun hp => absurd hp (of_decide_eq_false rfl)
      | true =>
        intro hp
        clear hp
        simp_all [openPairs, pairOpen]
    | true =>
      cases f3c with
      | false =>
        cases f3s with
        | false => exact fun hp => absurd hp (of_decide_eq_false rfl)
        | true =>
          intro hp
          clear hp
          simp_all [openPairs, pairOpen]
      | true =>
        cases f4c with
        | false =>
          cases f4s with
          | false => exact fun hp => absurd hp (of_decide_eq_false rfl)
          | true =>
            intro hp
            clear hp
            simp_all [openPairs, pairOpen]
        | true =>
          cases oc with
          | false =>
            cases ots with
            | false => exact fun hp => absurd hp (of_decide_eq_false rfl)
            | true =>
              cases ons with
              | false =>
                intro hp
                clear hp
                simp_all [openPairs, pairOpen]
              | true =>
                intro hp
                clear hp
                simp_all [openPairs, pairOpen]
          | true =>
            cases tc with
            | false =>
              cases tqs with
              | false => exact fun hp => absurd hp (of_decide_eq_false rfl)
              | true =>
                intro hp
                clear hp
                simp_all [openPairs, pairOpen]
            | true =>
              cases bc with
              | false =>
                cases bqs with
                | false => exact fun hp => absurd hp (of_decide_eq_false rfl)
                | true =>
                  intro hp
                  clear hp
                  simp_all [openPairs, pairOpen]
              | true =>
                cases svc with
                | false =>
                  cases svqs with
                  | false => exact fun hp => absurd hp (of_decide_eq_false rfl)
                  | true =>
                    intro hp
                    clear hp
                    simp_all [openPairs, pairOpen]
                | true =>
                  cases apc with
                  | false =>
                    cases apqs with
                    | false => exact fun hp => absurd hp (of_decide_eq_false rfl)
                    | true =>
                      intro hp
                      clear hp
                      simp_all [openPairs, pairOpen]
                  | true =>
                    cases pc with
                    | false =>
                      cases pqs with
                      | false => exact fun hp => absurd hp (of_decide_eq_false rfl)
                      | true =>
                        intro hp
                        clear hp
                        simp_all [openPairs, pairOpen]
                    | true =>
                      cases lc with
                      | false =>
                        cases lqs with
                        | false => exact fun hp => absurd hp (of_decide_eq_false rfl)
                        | true =>
                          intro hp
                          clear hp
                          simp_all [openPairs, pairOpen]
                      | true =>
                        cases dlc with
                        | false =>
                          cases dls with
                          | false => exact fun hp => absurd hp (of_decide_eq_false rfl)
                          | true =>
                            intro hp
                            clear hp
                            simp_all [openPairs, pairOpen]
                        | true =>
                          cases dcc with
                          | false =>
                            cases dcs with
                            | false => exact fun hp => absurd hp (of_decide_eq_false rfl)
                            | true =>
                              intro hp
                              clear hp
                              simp_all [openPairs, pairOpen]
                          | true =>
                            cases qc with
                            | false =>
                              cases qqs with
                              | false => exact fun hp => absurd hp (of_decide_eq_false rfl)
                              | true =>
                                intro hp
                                clear hp
                                simp_all [openPairs, pairOpen]
                            | true =>
                              cases szc with
                              | false =>
                                cases szqs with
                                | false => exact fun hp => absurd hp (of_decide_eq_false rfl)
                                | true =>
                                  intro hp
                                  clear hp
                                  simp_all [openPairs, pairOpen]
                              | true =>
                                cases dc with
                                | false =>
                                  cases aa with
                                  | false =>
                                    cases dqs with
                                    | false => exact fun hp => absurd hp (of_decide_eq_false rfl)
                                    | true =>
                                      intro hp
                                      clear hp
                                      have hadqs : adqs = false := by
                                        cases adqs
                                        · rfl
                                        · simpa using q17b rfl
                                      have hsums : sums = false := by
                                        cases sums
                                        · rfl
                                        · simpa using q18 rfl
                                      simp [openPairs, pairOpen, hadqs, hsums]
                                  | true =>
                                    cases adqs with
                                    | false => exact fun hp => absurd hp (of_decide_eq_false rfl)
                                    | true =>
                                      intro hp
                                      clear hp
                                      have hdqs : dqs = true := q17c rfl
                                      have hsums : sums = false := by
                                        cases sums
                                        · rfl
                                        · simpa using q18 rfl
                                      simp [openPairs, pairOpen, hdqs, hsums]
                                | true =>
                                  cases ocp with
                                  | false => exact fun hp => absurd hp (of_decide_eq_false rfl)
                                  | true => exact fun hp => absurd hp (of_decide_eq_false rfl)

set_option maxRecDepth 8000 in
/-- Witness for `C4_router_pause_open_questions` at the concrete paused
session of the counterexample run (the delivery-address sub-phase, where
the formula yields two). -/
theorem C4_router_pause_open_questions_witness :
    openPairs c4Pause =
      (if (!c4Pause.context_data.org_complete && c4Pause.context_data.org_name_shown)
          || (!c4Pause.context_data.delivery_complete && c4Pause.context_data.awaiting_address)
        then 2 else 1) :=
  C4_router_pause_open_questions c4Pause c4Pause_phi rfl rfl

end SPC
